import Mathlib

/-!
# Rancher diagnostic scripts: login handshake, cluster discovery, node-label audit

A shallow embedding of three Go programs:

* `helpers_env/downstream_temp/go_check_labels_v2.go` (namespace `CheckLabels`),
* `get_principals/get_principals.go` (namespace `GetPrincipals`),
* `get_principals/get_principal_individual.go` (namespace `GetPrincipalIndividual`).

The programs talk to a server through `*http.Client`.  That library is not part of the
repository, so it is modelled by an explicit environment:

* the server is a sequence of replies `Env.srv : Nat → Except String Response`, the `n`-th
  exchange performed through the client receiving reply `n` (`Except.error` is a transport
  failure reported by `client.Do`);
* `http.NewRequest` succeeds exactly on the URLs accepted by `Env.newRequestOk`;
* the JSON decoders are the functions `Env.decodeNodeList` and `Env.decodeManagementNodeList`;
* standard output is the list of `Event.printed` entries of the world, interleaved with the
  requests that were sent (`Event.sent`).

An exchange is one call of `client.Do`; redirects followed inside that call are part of the
reply it returns.

Cookie attributes (domain, path, expiry) are not modelled: every request of a run goes to the
same host, and the jar is a list of name/value pairs in creation order.
-/

namespace Rancher

/-! ## Data model -/

/-- A cookie as the jar hands it back: name and value. -/
abbrev Cookie := String × String

/-- A Go `map[string]string`; `none` is the nil map (the JSON field was absent). -/
abbrev Labels := Option (List (String × String))

/-- The keys of a label map. -/
def labelKeys : Labels → List String
  | none => []
  | some m => m.map Prod.fst

/-- The two-value map lookup `_, exists := m[k]`, keeping only `exists`. -/
def labelExists : Labels → String → Bool
  | none, _ => false
  | some m, k => m.any (fun kv => kv.1 == k)

/-- The Go struct `LoginPayload`. -/
structure LoginPayload where
  Description : String
  ResponseType : String
  Username : String
  Password : String
deriving DecidableEq, Repr

/-- What the programs put into an `*http.Request`. -/
structure Request where
  method : String
  url : String
  headers : List (String × String)
  body : Option LoginPayload
deriving DecidableEq, Repr

/-- What the programs read from an `*http.Response`, and the cookies it sets. -/
structure Response where
  StatusCode : Nat
  Body : String
  setCookies : List Cookie
deriving DecidableEq, Repr

/-- One element of `NodeList.Items` (the `Metadata` sub-struct flattened). -/
structure NodeItem where
  Name : String
  Labels : Labels
deriving DecidableEq, Repr

/-- One element of `ManagementNodeList.Data` (the `Metadata` sub-struct flattened). -/
structure ManagementNode where
  Namespace : String
  Labels : Labels
deriving DecidableEq, Repr

/-- Error values; one constructor per `fmt.Errorf` format of the sources, the `%w` verb
becoming an inner error. -/
inductive Err where
  /-- The error of `http.NewRequest` for the given URL. -/
  | newRequest (url : String)
  /-- The error of `client.Do`. -/
  | transport (msg : String)
  /-- The error of a JSON decoder. -/
  | json (msg : String)
  /-- The text "expected status 200, got %d. Body: %s". -/
  | csrfStatus (status : Nat) (body : String)
  /-- The text "CSRF cookie not found in response" (also "CSRF cookie not found", "CSRF not found"). -/
  | csrfCookieNotFound
  /-- The text "login failed with status %d. Response: %s" (also "status %d: %s"). -/
  | loginStatus (status : Nat) (body : String)
  /-- The text "R_SESS token missing after successful 200 OK". -/
  | rSessMissing
  /-- The text "session validation failed, status %d". -/
  | validationStatus (status : Nat)
  /-- The text "failed to get cluster IDs (status %d): %s". -/
  | clusterIDsStatus (status : Nat) (body : String)
  /-- The text "failed to decode management node list: %w". -/
  | decodeManagementNodeList (inner : Err)
  /-- The text "API proxy access failed for %s (status %d): %s". -/
  | proxyStatus (clusterID : String) (status : Nat) (body : String)
  /-- The text "failed to decode NodeList JSON for %s: %w". -/
  | decodeNodeList (clusterID : String) (inner : Err)
  /-- The text "found %d nodes missing a required role label in cluster %s". -/
  | nodesMissingRole (count : Nat) (clusterID : String)
  /-- The text "CSRF GET failed: %w". -/
  | csrfGetFailed (inner : Err)
  /-- The text "login POST failed: %w". -/
  | loginPostFailed (inner : Err)
  /-- The text "session validation failed: %w". -/
  | sessionValidationFailed (inner : Err)
  /-- The text "failed to retrieve cluster IDs: %w". -/
  | clusterIDsFailed (inner : Err)
deriving DecidableEq, Repr

/-- Lines written to standard output by the label-check program, each recorded as the
`fmt.Printf` call that writes it and the arguments of the call.  The text itself is not
modelled: the `%s` arguments are written as they are, so different records can have the same
text. -/
inductive Line where
  /-- The text "ERRORRRR". -/
  | newRequestFailed
  /-- The text "ERRRROOOR RESP". -/
  | doFailed
  /-- The warning "Node %s in %s is MISSING ALL required roles (%s). Current Labels: %v". -/
  | nodeMissing (userNum : Int) (nodeName clusterID : String) (missingLabels : List String)
      (labels : Labels)
  /-- The summary "%s Cluster %s (%d nodes checked)." with its status text. -/
  | clusterSummary (userNum : Int) (clusterStatus clusterID : String) (nodes : Nat)
  /-- The text "Cluster %s reported errors during node check." -/
  | clusterErrors (userNum : Int) (clusterID : String)
deriving DecidableEq, Repr

/-- What a run does that can be observed from outside, in order. -/
inductive Event where
  /-- A request handed to `client.Do`. -/
  | sent (req : Request)
  /-- A line written to standard output. -/
  | printed (line : Line)
deriving DecidableEq, Repr

/-- The library and the server the programs run against. -/
structure Env where
  /-- Whether `http.NewRequest` accepts the URL. -/
  newRequestOk : String → Bool
  /-- The reply to the `n`-th exchange. -/
  srv : Nat → Except String Response
  /-- The decoder `json.NewDecoder(resp.Body).Decode(&nodeList)` for a `NodeList`. -/
  decodeNodeList : String → Except String (List NodeItem)
  /-- The decoder for a `ManagementNodeList`. -/
  decodeManagementNodeList : String → Except String (List ManagementNode)

/-- The client (cookie jar), the position in the reply sequence, and the observable trace. -/
structure World where
  jar : List Cookie
  cursor : Nat
  events : List Event
deriving DecidableEq, Repr

/-! ## The HTTP client -/

/-- Store one cookie: an entry of the same name is replaced in place, a new one is appended. -/
def setCookie : List Cookie → Cookie → List Cookie
  | [], c => [c]
  | d :: rest, c => if d.1 = c.1 then c :: rest else d :: setCookie rest c

/-- The jar after `SetCookies`. -/
def setCookies (jar : List Cookie) (cs : List Cookie) : List Cookie :=
  cs.foldl setCookie jar

/-- The loop `for _, cookie := range client.Jar.Cookies(req.URL)` returning the value of the
first cookie of the given name. -/
def findCookie (jar : List Cookie) (name : String) : Option String :=
  match jar with
  | [] => none
  | c :: rest => if c.1 = name then some c.2 else findCookie rest name

/-- Write one line to standard output. -/
def World.print (w : World) (l : Line) : World :=
  { w with events := w.events ++ [Event.printed l] }

/-- The world after an exchange: the request is on the trace, one reply is consumed, and the
cookies of the reply are stored in the jar. -/
def World.exchanged (w : World) (req : Request) (cookies : List Cookie) : World :=
  { jar := setCookies w.jar cookies,
    cursor := w.cursor + 1,
    events := w.events ++ [Event.sent req] }

/-- The call `client.Do(req)`: the request is sent, the next reply of the server is consumed,
and the cookies of a response are stored in the jar (a transport failure stores none). -/
def clientDo (env : Env) (w : World) (req : Request) : Except String Response × World :=
  match env.srv w.cursor with
  | .error e => (.error e, w.exchanged req [])
  | .ok resp => (.ok resp, w.exchanged req resp.setCookies)

/-! ## go_check_labels_v2.go -/

namespace CheckLabels

/-- The constant `ManagementNodeAPI`. -/
def ManagementNodeAPI : String :=
  "/v1/management.cattle.io.nodes?pagesize=100000&exclude=metadata.managedFields"

/-- The package variable `TARGET_NODE_LABELS`. -/
def TARGET_NODE_LABELS : List String :=
  ["node-role.kubernetes.io/worker",
   "node-role.kubernetes.io/etcd",
   "node-role.kubernetes.io/control-plane"]

/-- The status text a cluster starts with. -/
def statusAllFound : String := "✅ All required roles found"

/-- The status text after a node without any required role. -/
def statusMissing : String := "❌ Missing required roles"

/-- The URL `fmt.Sprintf("%s/k8s/clusters/%s/api/v1/nodes?page=1&pagesize=100", host, clusterID)`. -/
def nodesURL (host clusterID : String) : String :=
  host ++ "/k8s/clusters/" ++ clusterID ++ "/api/v1/nodes?page=1&pagesize=100"

/-- The inner loop of `checkNodeLabels` over the required labels, from the values
`hasRequiredRole = false` and `missingLabels` accumulated so far: stops at the first label
that exists in the map (`break`), appends every label that does not. -/
def scanRequired (labels : Labels) : List String → List String → Bool × List String
  | [], missingLabels => (false, missingLabels)
  | requiredLabel :: rest, missingLabels =>
      if labelExists labels requiredLabel then (true, missingLabels)
      else scanRequired labels rest (missingLabels ++ [requiredLabel])

/-- The variables the outer loop of `checkNodeLabels` updates. -/
structure CheckState where
  clusterStatus : String
  nodesMissingRole : Nat
  world : World
deriving DecidableEq, Repr

/-- One iteration of the outer loop of `checkNodeLabels`. -/
def nodeStep (requiredLabels : List String) (userNum : Int) (clusterID : String)
    (s : CheckState) (item : NodeItem) : CheckState :=
  let r := scanRequired item.Labels requiredLabels []
  if r.1 = false then
    { clusterStatus := statusMissing,
      nodesMissingRole := s.nodesMissingRole + 1,
      world := s.world.print (Line.nodeMissing userNum item.Name clusterID r.2 item.Labels) }
  else s

/-- The function `checkNodeLabels`, with `TARGET_NODE_LABELS` taken as `requiredLabels`. -/
def checkNodeLabels (env : Env) (requiredLabels : List String) (w : World) (host : String)
    (userNum : Int) (clusterID : String) : Option Err × World :=
  let url := nodesURL host clusterID
  if env.newRequestOk url = false then
    (some (Err.newRequest url), w.print Line.newRequestFailed)
  else
    let req : Request :=
      { method := "GET", url := url, headers := [("Accept", "application/json")], body := none }
    match clientDo env w req with
    | (.error e, w1) => (some (Err.transport e), w1.print Line.doFailed)
    | (.ok resp, w1) =>
        if resp.StatusCode ≠ 200 then
          (some (Err.proxyStatus clusterID resp.StatusCode resp.Body), w1)
        else
          match env.decodeNodeList resp.Body with
          | .error e => (some (Err.decodeNodeList clusterID (Err.json e)), w1)
          | .ok items =>
              let s := items.foldl (nodeStep requiredLabels userNum clusterID)
                { clusterStatus := statusAllFound, nodesMissingRole := 0, world := w1 }
              let w2 :=
                if s.clusterStatus = statusAllFound then
                  s.world.print (Line.clusterSummary userNum s.clusterStatus clusterID items.length)
                else s.world
              if s.nodesMissingRole > 0 then
                (some (Err.nodesMissingRole s.nodesMissingRole clusterID), w2)
              else (none, w2)

/-- The loop of `getAllClusterIDs` over `nodeList.Data`, on the pair `(idMap, uniqueIDs)`;
the map is kept as the list of its keys. -/
def collectStep (acc : List String × List String) (item : ManagementNode) :
    List String × List String :=
  let clusterID := item.Namespace
  if clusterID ≠ "" then
    if clusterID = "local" then acc
    else if clusterID ∈ acc.1 then acc
    else (clusterID :: acc.1, acc.2 ++ [clusterID])
  else acc

/-- The slice `uniqueIDs` after the loop of `getAllClusterIDs`. -/
def collectClusterIDs (data : List ManagementNode) : List String :=
  (data.foldl collectStep ([], [])).2

/-- The function `getAllClusterIDs`. -/
def getAllClusterIDs (env : Env) (w : World) (host : String) :
    Except Err (List String) × World :=
  let url := host ++ ManagementNodeAPI
  if env.newRequestOk url = false then (.error (Err.newRequest url), w)
  else
    let req : Request :=
      { method := "GET", url := url, headers := [("Accept", "application/json")], body := none }
    match clientDo env w req with
    | (.error e, w1) => (.error (Err.transport e), w1)
    | (.ok resp, w1) =>
        if resp.StatusCode ≠ 200 then
          (.error (Err.clusterIDsStatus resp.StatusCode resp.Body), w1)
        else
          match env.decodeManagementNodeList resp.Body with
          | .error e => (.error (Err.decodeManagementNodeList (Err.json e)), w1)
          | .ok data => (.ok (collectClusterIDs data), w1)

/-- The jar `createHTTPClient` starts with. -/
def createHTTPClient : World :=
  { jar := [("R_PCS", "light"), ("R_REDIRECTED", "true"), ("R_LOCALE", "en-us")],
    cursor := 0, events := [] }

/-- The URL of the token fetch. -/
def csrfURL (host : String) : String :=
  host ++ "/v1/management.cattle.io.settings?exclude=metadata.managedFields"

/-- The URL of the login request. -/
def loginURL (host : String) : String :=
  host ++ "/v3-public/localProviders/local?action=login"

/-- The URL of the session probe. -/
def usersURL (host : String) : String :=
  host ++ "/v3/users?me=true"

/-- The function `getCSRFToken`. -/
def getCSRFToken (env : Env) (w : World) (host : String) : Except Err String × World :=
  let url := csrfURL host
  if env.newRequestOk url = false then (.error (Err.newRequest url), w)
  else
    let req : Request :=
      { method := "GET", url := url,
        headers :=
          [("Accept", "application/json"),
           ("Accept-Language", "en-US,en;q=0.9,pt-BR;q=0.8,pt;q=0.7"),
           ("User-Agent", "Mozilla/5.0 (X11; Linux x86_64) AppleWebKit/537.36 (KHTML, like Gecko) Chrome/137.0.0.0 Safari/537.36 OPR/121.0.0.0"),
           ("Referer", host ++ "/dashboard/auth/login?logged-out"),
           ("Sec-Fetch-Site", "same-origin")],
        body := none }
    match clientDo env w req with
    | (.error e, w1) => (.error (Err.transport e), w1)
    | (.ok resp, w1) =>
        if resp.StatusCode ≠ 200 then
          (.error (Err.csrfStatus resp.StatusCode resp.Body), w1)
        else
          match findCookie w1.jar "CSRF" with
          | some value => (.ok value, w1)
          | none => (.error Err.csrfCookieNotFound, w1)

/-- The function `postLogin`.  (`json.Marshal` of a struct of four strings cannot fail, so
its error branch is not reachable and is left out.) -/
def postLogin (env : Env) (w : World) (host username password csrfToken : String) :
    Option Err × World :=
  let url := loginURL host
  let payload : LoginPayload :=
    { Description := "UI session", ResponseType := "cookie",
      Username := username, Password := password }
  if env.newRequestOk url = false then (some (Err.newRequest url), w)
  else
    let req : Request :=
      { method := "POST", url := url,
        headers :=
          [("Accept", "application/json"),
           ("Content-Type", "application/json"),
           ("X-Api-Csrf", csrfToken),
           ("Referer", host ++ "/dashboard/auth/login?logged-out"),
           ("Origin", host)],
        body := some payload }
    match clientDo env w req with
    | (.error e, w1) => (some (Err.transport e), w1)
    | (.ok resp, w1) =>
        if resp.StatusCode ≠ 200 then
          (some (Err.loginStatus resp.StatusCode resp.Body), w1)
        else
          let rSess := (findCookie w1.jar "R_SESS").getD ""
          if rSess = "" then (some Err.rSessMissing, w1) else (none, w1)

/-- The function `validateSession`. -/
def validateSession (env : Env) (w : World) (host : String) : Option Err × World :=
  let url := usersURL host
  if env.newRequestOk url = false then (some (Err.newRequest url), w)
  else
    let req : Request :=
      { method := "GET", url := url, headers := [("Accept", "application/json")], body := none }
    match clientDo env w req with
    | (.error e, w1) => (some (Err.transport e), w1)
    | (.ok resp, w1) =>
        if resp.StatusCode ≠ 200 then (some (Err.validationStatus resp.StatusCode), w1)
        else (none, w1)

/-- The loop of `executeLoginFlow` over the discovered cluster IDs, from the current value
of `checkErr`. -/
def checkClusters (env : Env) (requiredLabels : List String) (host : String) (userNum : Int) :
    List String → World → Option Err → Option Err × World
  | [], w, checkErr => (checkErr, w)
  | clusterID :: rest, w, checkErr =>
      match checkNodeLabels env requiredLabels w host userNum clusterID with
      | (some err, w1) =>
          checkClusters env requiredLabels host userNum rest
            (w1.print (Line.clusterErrors userNum clusterID)) (some err)
      | (none, w1) => checkClusters env requiredLabels host userNum rest w1 checkErr

/-- The function `executeLoginFlow`. -/
def executeLoginFlow (env : Env) (requiredLabels : List String) (w : World)
    (host username password : String) (userNum : Int) : Option Err × World :=
  match getCSRFToken env w host with
  | (.error err, w1) => (some (Err.csrfGetFailed err), w1)
  | (.ok csrfToken, w1) =>
      match postLogin env w1 host username password csrfToken with
      | (some err, w2) => (some (Err.loginPostFailed err), w2)
      | (none, w2) =>
          match validateSession env w2 host with
          | (some err, w3) => (some (Err.sessionValidationFailed err), w3)
          | (none, w3) =>
              match getAllClusterIDs env w3 host with
              | (.error err, w4) => (some (Err.clusterIDsFailed err), w4)
              | (.ok clusterIDs, w4) =>
                  checkClusters env requiredLabels host userNum clusterIDs w4 none

end CheckLabels

/-! ## get_principals.go

Both principal programs discard the error of `http.NewRequest` (`req, _ := ...`).  When the
URL is rejected `req` is nil and the next use of it is a nil dereference, so the functions
below return `none` for a run that ends in that panic. -/

namespace GetPrincipals

/-- The function `getCSRFToken`: the pair `(token, err)` it returns. -/
def getCSRFToken (env : Env) (w : World) (host : String) :
    Option ((String × Option Err) × World) :=
  let url := host ++ "/v3"
  if env.newRequestOk url = false then none
  else
    let req : Request := { method := "GET", url := url, headers := [], body := none }
    match clientDo env w req with
    | (.error e, w1) => some (("", some (Err.transport e)), w1)
    | (.ok _, w1) =>
        match findCookie w1.jar "CSRF" with
        | some value => some ((value, none), w1)
        | none => some (("", some Err.csrfCookieNotFound), w1)

/-- The function `postLogin`. -/
def postLogin (env : Env) (w : World) (host username password csrfToken : String) :
    Option (Option Err × World) :=
  let loginUrl := host ++ "/v3-public/localProviders/local?action=login"
  let payload : LoginPayload :=
    { Description := "Automation Session", ResponseType := "cookie",
      Username := username, Password := password }
  if env.newRequestOk loginUrl = false then none
  else
    let req : Request :=
      { method := "POST", url := loginUrl,
        headers :=
          [("Content-Type", "application/json")] ++
            (if csrfToken ≠ "" then [("X-Api-Csrf", csrfToken)] else []),
        body := some payload }
    match clientDo env w req with
    | (.error e, w1) => some (some (Err.transport e), w1)
    | (.ok resp, w1) =>
        if resp.StatusCode ≠ 200 then
          some (some (Err.loginStatus resp.StatusCode resp.Body), w1)
        else some (none, w1)

/-- The function `executeLoginFlow`: the error of `getCSRFToken` is dropped
(`csrfToken, _ := ...`). -/
def executeLoginFlow (env : Env) (w : World) (host username password : String) :
    Option (Option Err × World) :=
  match getCSRFToken env w host with
  | none => none
  | some ((csrfToken, _), w1) => postLogin env w1 host username password csrfToken

end GetPrincipals

/-! ## get_principal_individual.go -/

namespace GetPrincipalIndividual

/-- The function `getCSRFToken`: the pair `(token, err)` it returns. -/
def getCSRFToken (env : Env) (w : World) (host : String) :
    Option ((String × Option Err) × World) :=
  if env.newRequestOk (host ++ "/v3") = false then none
  else
    let req : Request := { method := "GET", url := host ++ "/v3", headers := [], body := none }
    match clientDo env w req with
    | (.error e, w1) => some (("", some (Err.transport e)), w1)
    | (.ok _, w1) =>
        match findCookie w1.jar "CSRF" with
        | some value => some ((value, none), w1)
        | none => some (("", some Err.csrfCookieNotFound), w1)

/-- The function `postLogin`: after `client.Do` succeeds it returns nil without looking at
the response. -/
def postLogin (env : Env) (w : World) (host username password csrfToken : String) :
    Option (Option Err × World) :=
  let loginUrl := host ++ "/v3-public/localProviders/local?action=login"
  let payload : LoginPayload :=
    { Description := "UI session", ResponseType := "cookie",
      Username := username, Password := password }
  if env.newRequestOk loginUrl = false then none
  else
    let req : Request :=
      { method := "POST", url := loginUrl,
        headers :=
          [("Content-Type", "application/json")] ++
            (if csrfToken ≠ "" then [("X-Api-Csrf", csrfToken)] else []),
        body := some payload }
    match clientDo env w req with
    | (.error e, w1) => some (some (Err.transport e), w1)
    | (.ok _, w1) => some (none, w1)

/-- The function `executeLoginFlow`. -/
def executeLoginFlow (env : Env) (w : World) (host username password : String) :
    Option (Option Err × World) :=
  match getCSRFToken env w host with
  | none => none
  | some ((csrfToken, _), w1) => postLogin env w1 host username password csrfToken

end GetPrincipalIndividual

/-! ## Notions used to state the properties -/

/-- The specification's compliance: some key of the node's label map is a required label
(`M.keys() ∩ L ≠ ∅`). -/
def specCompliant (L : List String) (item : NodeItem) : Bool :=
  (labelKeys item.Labels).any (fun k => decide (k ∈ L))

/-- The specification's missing-label list `L \ M.keys()`, in the order of `L`. -/
def specMissing (L : List String) (M : Labels) : List String :=
  L.filter (fun l => decide (l ∉ labelKeys M))

/-- The warning the specification expects for a non-compliant node. -/
def specWarning (L : List String) (userNum : Int) (clusterID : String) (item : NodeItem) :
    Event :=
  Event.printed (Line.nodeMissing userNum item.Name clusterID (specMissing L item.Labels)
    item.Labels)

/-- The request `checkNodeLabels` sends for a cluster. -/
def CheckLabels.nodesRequest (host clusterID : String) : Request :=
  { method := "GET", url := CheckLabels.nodesURL host clusterID,
    headers := [("Accept", "application/json")], body := none }

/-- The namespace column of a decoded inventory. -/
def namespaces (data : List ManagementNode) : List String :=
  data.map (fun item => item.Namespace)

/-- The request `getAllClusterIDs` sends. -/
def CheckLabels.inventoryRequest (host : String) : Request :=
  { method := "GET", url := host ++ CheckLabels.ManagementNodeAPI,
    headers := [("Accept", "application/json")], body := none }

/-- Whether an event is a per-node warning of `checkNodeLabels`. -/
def isWarning : Event → Bool
  | Event.printed (Line.nodeMissing _ _ _ _ _) => true
  | _ => false

/-- The request `getCSRFToken` sends. -/
def CheckLabels.csrfRequest (host : String) : Request :=
  { method := "GET", url := CheckLabels.csrfURL host,
    headers :=
      [("Accept", "application/json"),
       ("Accept-Language", "en-US,en;q=0.9,pt-BR;q=0.8,pt;q=0.7"),
       ("User-Agent", "Mozilla/5.0 (X11; Linux x86_64) AppleWebKit/537.36 (KHTML, like Gecko) Chrome/137.0.0.0 Safari/537.36 OPR/121.0.0.0"),
       ("Referer", host ++ "/dashboard/auth/login?logged-out"),
       ("Sec-Fetch-Site", "same-origin")],
    body := none }

/-- The request `postLogin` sends. -/
def CheckLabels.loginRequest (host username password csrfToken : String) : Request :=
  { method := "POST", url := CheckLabels.loginURL host,
    headers :=
      [("Accept", "application/json"),
       ("Content-Type", "application/json"),
       ("X-Api-Csrf", csrfToken),
       ("Referer", host ++ "/dashboard/auth/login?logged-out"),
       ("Origin", host)],
    body := some { Description := "UI session", ResponseType := "cookie",
                   Username := username, Password := password } }

/-- The request `validateSession` sends. -/
def CheckLabels.usersRequest (host : String) : Request :=
  { method := "GET", url := CheckLabels.usersURL host,
    headers := [("Accept", "application/json")], body := none }

/-- Whether an event is a cluster-discovery request or a per-cluster node request. -/
def isClusterQuery (host : String) : Event → Prop
  | Event.sent req =>
      req.url = host ++ CheckLabels.ManagementNodeAPI ∨
        ∃ clusterID, req.url = CheckLabels.nodesURL host clusterID
  | Event.printed _ => False

/-- The events a run added to the trace of the world it started from. -/
def newEvents (w w1 : World) : List Event :=
  w1.events.drop w.events.length

/-- The trace of `w1` continues that of `w` without any cluster query. -/
def quietExtension (host : String) (w w1 : World) : Prop :=
  ∃ new, w1.events = w.events ++ new ∧ ∀ e ∈ new, ¬ isClusterQuery host e

/-- The client as a run left it, facing the same sequence of replies once more from
position `n`. -/
def World.rewind (w : World) (n : Nat) : World :=
  { w with cursor := n }

/-- The first three steps of `executeLoginFlow` (token fetch, login, session probe), up to
the point where cluster discovery starts. -/
def CheckLabels.handshake (env : Env) (w : World) (host username password : String) :
    Option Err × World :=
  match CheckLabels.getCSRFToken env w host with
  | (.error err, w1) => (some (Err.csrfGetFailed err), w1)
  | (.ok csrfToken, w1) =>
      match CheckLabels.postLogin env w1 host username password csrfToken with
      | (some err, w2) => (some (Err.loginPostFailed err), w2)
      | (none, w2) =>
          match CheckLabels.validateSession env w2 host with
          | (some err, w3) => (some (Err.sessionValidationFailed err), w3)
          | (none, w3) => (none, w3)

/-- Discovery and the per-cluster loop of `executeLoginFlow`, entered after the handshake. -/
def CheckLabels.audit (env : Env) (requiredLabels : List String) (w : World) (host : String)
    (userNum : Int) : Option Err × World :=
  match CheckLabels.getAllClusterIDs env w host with
  | (.error err, w4) => (some (Err.clusterIDsFailed err), w4)
  | (.ok clusterIDs, w4) =>
      CheckLabels.checkClusters env requiredLabels host userNum clusterIDs w4 none

/-- A fresh client with an empty trace, facing the reply at the given position. -/
def worldAt (n : Nat) : World := { jar := [], cursor := n, events := [] }

/-- The result of checking each cluster on its own: a fresh client with an empty trace checks
cluster `i` against the reply at the position the loop has reached, `k` for the first
cluster. -/
def CheckLabels.soloChecks (env : Env) (requiredLabels : List String) (host : String)
    (userNum : Int) : List String → Nat → List (Option Err × World)
  | [], _ => []
  | clusterID :: rest, k =>
      CheckLabels.checkNodeLabels env requiredLabels (worldAt k) host userNum clusterID ::
        CheckLabels.soloChecks env requiredLabels host userNum rest
          (CheckLabels.checkNodeLabels env requiredLabels (worldAt k) host userNum
            clusterID).2.cursor

/-- The trace expected of the loop: for each cluster in order, the events of its own check,
then the line reporting the cluster when its check returned an error. -/
def CheckLabels.soloTrace (userNum : Int) : List String → List (Option Err × World) → List Event
  | clusterID :: rest, r :: runs =>
      r.2.events ++
        (if r.1.isSome then [Event.printed (Line.clusterErrors userNum clusterID)] else []) ++
        CheckLabels.soloTrace userNum rest runs
  | _, _ => []

/-- The value of `checkErr` after a sequence of check results: the last error, if any. -/
def lastError (acc : Option Err) : List (Option Err × World) → Option Err
  | [] => acc
  | r :: runs => lastError (match r.1 with | some err => some err | none => acc) runs

/-- The values `checkNodeLabels` returns in the successive iterations of the loop of
`executeLoginFlow`, the world being threaded exactly as the loop threads it. -/
def CheckLabels.checkResults (env : Env) (requiredLabels : List String) (host : String)
    (userNum : Int) : List String → World → List (Option Err)
  | [], _ => []
  | clusterID :: rest, w =>
      match CheckLabels.checkNodeLabels env requiredLabels w host userNum clusterID with
      | (some err, w1) =>
          some err :: CheckLabels.checkResults env requiredLabels host userNum rest
            (w1.print (Line.clusterErrors userNum clusterID))
      | (none, w1) =>
          none :: CheckLabels.checkResults env requiredLabels host userNum rest w1

/-- The position in the reply sequence at which the check of the `i`-th cluster finds its
reply, for a loop starting at position `k`: one reply is consumed by each earlier cluster
whose request could be built. -/
def CheckLabels.replyPosition (env : Env) (host : String) (ids : List String) (k i : Nat) :
    Nat :=
  k + (ids.take i).countP (fun clusterID => env.newRequestOk (CheckLabels.nodesURL host clusterID))

/-- Whether an event marks the start of a check: the node request, or the line printed when
the request could not be built. -/
def isAttempt : Event → Bool
  | Event.sent _ => true
  | Event.printed Line.newRequestFailed => true
  | _ => false

/-- The three kinds of outcome a cluster can have in an audit. -/
inductive OutcomeKind where
  /-- Every node of the cluster is compliant. -/
  | success
  /-- Some node of the cluster lacks every required label. -/
  | nonCompliant
  /-- The node list of the cluster could not be fetched or decoded. -/
  | queryError
deriving DecidableEq, Repr

/-- The kind of outcome a value returned by `checkNodeLabels` stands for. -/
def outcomeKind : Option Err → OutcomeKind
  | none => OutcomeKind.success
  | some (Err.nodesMissingRole _ _) => OutcomeKind.nonCompliant
  | some _ => OutcomeKind.queryError

/-- The value of `checkErr` after the loop, from the values the checks returned: the last
error, if any. -/
def lastFailure (acc : Option Err) : List (Option Err) → Option Err
  | [] => acc
  | e :: rest => lastFailure (match e with | some err => some err | none => acc) rest

/-- The outcome kind of every discovered cluster in a run of `executeLoginFlow`, when the
handshake and the discovery succeed. -/
def CheckLabels.flowKinds (env : Env) (requiredLabels : List String) (w : World)
    (host username password : String) (userNum : Int) :
    Option (List (String × OutcomeKind)) :=
  match CheckLabels.handshake env w host username password with
  | (some _, _) => none
  | (none, w3) =>
      match CheckLabels.getAllClusterIDs env w3 host with
      | (.error _, _) => none
      | (.ok clusterIDs, w4) =>
          some (clusterIDs.zip
            ((CheckLabels.checkResults env requiredLabels host userNum clusterIDs w4).map
              outcomeKind))

/-- One element of `PRTBBindingResponse.Data`. -/
structure Binding where
  ID : String
  UserId : String
  UserPrincipalId : String
deriving DecidableEq, Repr

/-- Lines written to standard output by `getPrincipalIDsFromBindings`. -/
inductive PrincipalLine where
  /-- The text "Error listing bindings: %v". -/
  | listError (msg : String)
  /-- The text "[UserID: %s]". -/
  | userID (id : String)
deriving DecidableEq, Repr

/-- The variables the loop of `getPrincipalIDsFromBindings` updates; the map `seen` is kept
as the list of the keys it maps to true. -/
structure BindingState where
  ids : List String
  seen : List String
  out : List PrincipalLine
deriving DecidableEq, Repr

/-- One iteration of the loop of `getPrincipalIDsFromBindings`: the three tests and both
updates read `item.UserId`. -/
def GetPrincipalIndividual.bindingStep (s : BindingState) (item : Binding) : BindingState :=
  let out := s.out ++ [PrincipalLine.userID item.UserId]
  if item.UserId ≠ "" ∧ item.UserId ∉ s.seen ∧ item.UserId ≠ "system:admin" then
    { ids := s.ids ++ [item.UserId], seen := item.UserId :: s.seen, out := out }
  else { s with out := out }

/-- The slice `ids` after the loop of `getPrincipalIDsFromBindings`. -/
def GetPrincipalIndividual.collectIDs (data : List Binding) : List String :=
  (data.foldl GetPrincipalIndividual.bindingStep { ids := [], seen := [], out := [] }).ids

/-- The function `getPrincipalIDsFromBindings`: the returned slice and the lines printed.
The error of `json.Unmarshal` is dropped by the source, so the decoder is the function
`unmarshal` giving `prtbResp.Data` after the call; the error of `http.NewRequest` is dropped
too, and `req.Header.Set` on the nil request is the panic `none`. -/
def GetPrincipalIndividual.getPrincipalIDsFromBindings (env : Env)
    (unmarshal : String → List Binding) (w : World) (host : String) :
    Option ((List String × List PrincipalLine) × World) :=
  let apiUrl := host ++ "/v3/projectroletemplatebindings"
  if env.newRequestOk apiUrl = false then none
  else
    let req : Request :=
      { method := "GET", url := apiUrl, headers := [("Accept", "application/json")],
        body := none }
    match clientDo env w req with
    | (.error e, w1) => some (([], [PrincipalLine.listError e]), w1)
    | (.ok resp, w1) =>
        let s := (unmarshal resp.Body).foldl GetPrincipalIndividual.bindingStep
          { ids := [], seen := [], out := [] }
        some ((s.ids, s.out), w1)

/-- The token-fetch request of the two principal programs. -/
def principalsTokenRequest (host : String) : Request :=
  { method := "GET", url := host ++ "/v3", headers := [], body := none }

/-- The login request of the two principal programs when the token is empty: no
`X-Api-Csrf` header is set. -/
def principalsLoginRequest (host description username password : String) : Request :=
  { method := "POST", url := host ++ "/v3-public/localProviders/local?action=login",
    headers := [("Content-Type", "application/json")],
    body := some { Description := description, ResponseType := "cookie",
                   Username := username, Password := password } }

/-! ## A concrete run

A server that sets the `CSRF` cookie, accepts the login, answers the session probe, lists
the four namespaces `local`, `c-1`, `c-1`, `c-2`, serves two nodes for `c-1` and answers 503
for every later request. -/

/-- The two nodes of cluster `c-1`: one carries a required role, the other only a zone. -/
def demoNodes : List NodeItem :=
  [{ Name := "n1", Labels := some [("role/worker", "true")] },
   { Name := "n2", Labels := some [("zone", "us-east")] }]

/-- The management inventory of the run. -/
def demoInventory : List ManagementNode :=
  [{ Namespace := "local", Labels := none }, { Namespace := "c-1", Labels := none },
   { Namespace := "c-1", Labels := none }, { Namespace := "c-2", Labels := none }]

/-- The required labels of the specification's scenario. -/
def demoLabels : List String := ["role/worker", "role/control-plane"]

/-- The replies of the server, by position. -/
def demoSrv : Nat → Except String Response
  | 0 => .ok { StatusCode := 200, Body := "settings", setCookies := [("CSRF", "tok")] }
  | 1 => .ok { StatusCode := 200, Body := "login", setCookies := [("R_SESS", "sess")] }
  | 2 => .ok { StatusCode := 200, Body := "me", setCookies := [] }
  | 3 => .ok { StatusCode := 200, Body := "inventory", setCookies := [] }
  | 4 => .ok { StatusCode := 200, Body := "nodes", setCookies := [] }
  | _ => .ok { StatusCode := 503, Body := "unavailable", setCookies := [] }

/-- The environment of the run. -/
def demoEnv : Env :=
  { newRequestOk := fun _ => true,
    srv := demoSrv,
    decodeNodeList := fun b => if b = "nodes" then .ok demoNodes else .error "invalid",
    decodeManagementNodeList :=
      fun b => if b = "inventory" then .ok demoInventory else .error "invalid" }

/-- The world of the concrete run after the token fetch. -/
def demoW1 : World :=
  (CheckLabels.getCSRFToken demoEnv CheckLabels.createHTTPClient "h").2

/-- The world of the concrete run after the login. -/
def demoW2 : World :=
  (CheckLabels.postLogin demoEnv demoW1 "h" "admin" "pw" "tok").2

/-- The world of the concrete run after the session probe. -/
def demoW3 : World :=
  (CheckLabels.validateSession demoEnv demoW2 "h").2

/-- The world of the concrete run after cluster discovery. -/
def demoW4 : World :=
  (CheckLabels.getAllClusterIDs demoEnv demoW3 "h").2

/-- A server that sets the `CSRF` cookie and then rejects the login with status 401. -/
def rejectSrv : Nat → Except String Response
  | 0 => .ok { StatusCode := 200, Body := "settings", setCookies := [("CSRF", "tok")] }
  | _ => .ok { StatusCode := 401, Body := "Unauthorized", setCookies := [] }

/-- The environment of the rejected login. -/
def rejectEnv : Env :=
  { demoEnv with srv := rejectSrv }

/-- A server like that of the concrete run, except that its first reply sets no cookie. -/
def noCsrfSrv : Nat → Except String Response
  | 0 => .ok { StatusCode := 200, Body := "settings", setCookies := [] }
  | n + 1 => demoSrv (n + 1)

/-- The environment without the `CSRF` cookie. -/
def noCsrfEnv : Env :=
  { demoEnv with srv := noCsrfSrv }

/-- A node list whose only node carries a required role. -/
def compliantNodes : List NodeItem :=
  [{ Name := "n1", Labels := some [("role/worker", "true")] }]

/-- A decoder that knows the node list of the concrete run and the compliant one. -/
def auditDecode (b : String) : Except String (List NodeItem) :=
  if b = "nodes" then .ok demoNodes
  else if b = "good" then .ok compliantNodes
  else .error "invalid"

/-- The concrete run: `c-1` has a non-compliant node, `c-2` answers 503. -/
def auditEnvA : Env :=
  { demoEnv with decodeNodeList := auditDecode }

/-- The same server, except that the node list of `c-1` is the compliant one. -/
def auditSrvB : Nat → Except String Response
  | 4 => .ok { StatusCode := 200, Body := "good", setCookies := [] }
  | n => demoSrv n

/-- A run in which `c-1` succeeds and `c-2` answers 503. -/
def auditEnvB : Env :=
  { auditEnvA with srv := auditSrvB }

/-- The same server, except that the node request of `c-1` is answered 500. -/
def auditSrvC : Nat → Except String Response
  | 4 => .ok { StatusCode := 500, Body := "boom", setCookies := [] }
  | n => demoSrv n

/-- A run in which `c-1` fails to fetch and `c-2` answers 503. -/
def auditEnvC : Env :=
  { auditEnvA with srv := auditSrvC }

/-- A binding list: a local user bound twice, a binding without user ID whose principal is
an LDAP user, and the system admin. -/
def demoBindings : List Binding :=
  [{ ID := "b1", UserId := "u-1", UserPrincipalId := "local://u-1" },
   { ID := "b2", UserId := "", UserPrincipalId := "openldap_user://x" },
   { ID := "b3", UserId := "u-1", UserPrincipalId := "local://u-1" },
   { ID := "b4", UserId := "system:admin", UserPrincipalId := "system://admin" }]

/-- A server that answers every request with status 200 and the body "bindings". -/
def bindingsEnv : Env :=
  { demoEnv with srv := fun _ => .ok { StatusCode := 200, Body := "bindings", setCookies := [] } }

/-- A decoder that knows the binding list above. -/
def demoUnmarshal (b : String) : List Binding :=
  if b = "bindings" then demoBindings else []

/-! ## Node compliance (`checkNodeLabels`, inner loop) -/

/-- `scanRequired` only ever extends the list of missing labels, and reports a match exactly
when some remaining required label is a key of the map. -/
theorem CheckLabels.scanRequired_fst (labels : Labels) (L acc : List String) :
    (CheckLabels.scanRequired labels L acc).1 = L.any (fun l => labelExists labels l) := by
  induction L generalizing acc with
  | nil => rfl
  | cons l rest ih =>
      unfold CheckLabels.scanRequired
      by_cases h : labelExists labels l = true
      · simp [h]
      · simp [h, ih]

theorem labelExists_iff (labels : Labels) (k : String) :
    labelExists labels k = true ↔ k ∈ labelKeys labels := by
  cases labels with
  | none => simp [labelExists, labelKeys]
  | some m =>
      simp only [labelExists, labelKeys, List.any_eq_true, List.mem_map, beq_iff_eq]

/-- When no required label is a key of the map, the scan returns every required label, in
order, after the labels accumulated before. -/
theorem CheckLabels.scanRequired_snd (labels : Labels) (L acc : List String)
    (h : (CheckLabels.scanRequired labels L acc).1 = false) :
    (CheckLabels.scanRequired labels L acc).2 = acc ++ L := by
  induction L generalizing acc with
  | nil => simp [CheckLabels.scanRequired]
  | cons l rest ih =>
      unfold CheckLabels.scanRequired at h ⊢
      by_cases hl : labelExists labels l = true
      · simp [hl] at h
      · simp only [hl, Bool.false_eq_true, if_false] at h ⊢
        rw [ih _ h]; simp

/-- C1: for every required-label list `L` and label map `M`, the per-node check of
`checkNodeLabels` sets `hasRequiredRole` exactly when some key of `M` is an element of `L`;
the values of `M` play no role (two maps with the same keys get the same verdict), an empty
`L` makes every node non-compliant, and an empty or absent map is non-compliant. -/
theorem CheckLabels.node_compliant_iff (L : List String) (M : Labels) :
    ((CheckLabels.scanRequired M L []).1 = true ↔ ∃ k ∈ labelKeys M, k ∈ L) ∧
    (∀ M2 : Labels, labelKeys M2 = labelKeys M →
      (CheckLabels.scanRequired M2 L []).1 = (CheckLabels.scanRequired M L []).1) ∧
    (CheckLabels.scanRequired M [] []).1 = false ∧
    (CheckLabels.scanRequired none L []).1 = false ∧
    (CheckLabels.scanRequired (some []) L []).1 = false := by
  have key : ∀ M : Labels,
      ((CheckLabels.scanRequired M L []).1 = true ↔ ∃ k ∈ labelKeys M, k ∈ L) := by
    intro M
    rw [CheckLabels.scanRequired_fst, List.any_eq_true]
    constructor
    · rintro ⟨l, hl, hex⟩
      exact ⟨l, (labelExists_iff M l).1 hex, hl⟩
    · rintro ⟨k, hk, hkL⟩
      exact ⟨k, hkL, (labelExists_iff M k).2 hk⟩
  refine ⟨key M, ?_, rfl, ?_, ?_⟩
  · intro M2 hkeys
    have h1 := key M2
    have h2 := key M
    rw [hkeys] at h1
    cases hb : (CheckLabels.scanRequired M L []).1 with
    | true => exact h1.2 (h2.1 hb)
    | false =>
        cases hb2 : (CheckLabels.scanRequired M2 L []).1 with
        | true => rw [h2.2 (h1.1 hb2)] at hb; cases hb
        | false => rfl
  · rw [CheckLabels.scanRequired_fst]; simp [labelExists]
  · rw [CheckLabels.scanRequired_fst]; simp [labelExists]

/-- The scenario of the specification: with required labels `role/worker` and
`role/control-plane`, a node labelled `role/worker` is compliant whatever the value of the
label, and a node labelled only `zone` is not. -/
theorem CheckLabels.node_compliant_iff_witness :
    (CheckLabels.scanRequired (some [("role/worker", "true")])
        ["role/worker", "role/control-plane"] []).1 = true ∧
    (CheckLabels.scanRequired (some [("role/worker", "false")])
        ["role/worker", "role/control-plane"] []).1 =
      (CheckLabels.scanRequired (some [("role/worker", "true")])
        ["role/worker", "role/control-plane"] []).1 ∧
    ¬ (CheckLabels.scanRequired (some [("zone", "us-east")])
        ["role/worker", "role/control-plane"] []).1 = true :=
  ⟨(CheckLabels.node_compliant_iff ["role/worker", "role/control-plane"]
      (some [("role/worker", "true")])).1.2 ⟨"role/worker", by simp [labelKeys], by simp⟩,
   (CheckLabels.node_compliant_iff ["role/worker", "role/control-plane"]
      (some [("role/worker", "true")])).2.1 (some [("role/worker", "false")]) rfl,
   fun h =>
    absurd ((CheckLabels.node_compliant_iff ["role/worker", "role/control-plane"]
      (some [("zone", "us-east")])).1.1 h) (by simp [labelKeys])⟩

/-! ## The per-cluster check (`checkNodeLabels`, outer loop) -/

theorem CheckLabels.scan_eq_specCompliant (L : List String) (item : NodeItem) :
    (CheckLabels.scanRequired item.Labels L []).1 = specCompliant L item := by
  rw [CheckLabels.scanRequired_fst]
  rw [Bool.eq_iff_iff, List.any_eq_true]
  unfold specCompliant
  rw [List.any_eq_true]
  constructor
  · rintro ⟨l, hl, hex⟩
    exact ⟨l, (labelExists_iff _ l).1 hex, by simpa using hl⟩
  · rintro ⟨k, hk, hkL⟩
    exact ⟨k, by simpa using hkL, (labelExists_iff _ k).2 hk⟩

/-- For a non-compliant node the specification's missing list is the whole required list. -/
theorem specMissing_of_not_compliant (L : List String) (item : NodeItem)
    (h : specCompliant L item = false) : specMissing L item.Labels = L := by
  unfold specMissing
  rw [List.filter_eq_self]
  intro l hl
  simp only [decide_eq_true_eq]
  intro hmem
  have : specCompliant L item = true := by
    unfold specCompliant
    rw [List.any_eq_true]
    exact ⟨l, hmem, by simpa using hl⟩
  rw [h] at this
  cases this

theorem CheckLabels.nodeStep_eq (L : List String) (userNum : Int) (clusterID : String)
    (s : CheckLabels.CheckState) (item : NodeItem) :
    CheckLabels.nodeStep L userNum clusterID s item =
      if specCompliant L item = true then s
      else
        { clusterStatus := CheckLabels.statusMissing,
          nodesMissingRole := s.nodesMissingRole + 1,
          world := { s.world with
            events := s.world.events ++ [specWarning L userNum clusterID item] } } := by
  unfold CheckLabels.nodeStep
  cases hc : specCompliant L item with
  | true =>
      have h1 := CheckLabels.scan_eq_specCompliant L item
      rw [hc] at h1
      simp [h1]
  | false =>
      have h1 := CheckLabels.scan_eq_specCompliant L item
      rw [hc] at h1
      have h2 := CheckLabels.scanRequired_snd item.Labels L [] h1
      simp only [h1, h2, if_true, Bool.false_eq_true, if_false, World.print, specWarning,
        specMissing_of_not_compliant L item hc, List.nil_append]

theorem CheckLabels.foldl_nodeStep (L : List String) (userNum : Int) (clusterID : String)
    (items : List NodeItem) (s : CheckLabels.CheckState) :
    items.foldl (CheckLabels.nodeStep L userNum clusterID) s =
      { clusterStatus :=
          if items.all (specCompliant L) = true then s.clusterStatus
          else CheckLabels.statusMissing,
        nodesMissingRole :=
          s.nodesMissingRole + items.countP (fun i => !specCompliant L i),
        world := { s.world with
          events := s.world.events ++
            (items.filter (fun i => !specCompliant L i)).map
              (specWarning L userNum clusterID) } } := by
  induction items generalizing s with
  | nil => simp
  | cons item rest ih =>
      rw [List.foldl_cons, ih, CheckLabels.nodeStep_eq]
      cases hc : specCompliant L item with
      | true => simp [hc]
      | false =>
          simp [hc, List.countP_cons, Nat.add_assoc, Nat.add_comm 1]

theorem CheckLabels.statusMissing_ne : CheckLabels.statusMissing ≠ CheckLabels.statusAllFound := by
  decide

/-- Closed form of `checkNodeLabels` on a cluster whose node request is answered with status
200 and a decodable body. -/
theorem CheckLabels.checkNodeLabels_ok (env : Env) (L : List String) (w : World)
    (host : String) (userNum : Int) (clusterID : String) (resp : Response)
    (items : List NodeItem)
    (hurl : env.newRequestOk (CheckLabels.nodesURL host clusterID) = true)
    (hresp : env.srv w.cursor = .ok resp) (hstatus : resp.StatusCode = 200)
    (hdec : env.decodeNodeList resp.Body = .ok items) :
    CheckLabels.checkNodeLabels env L w host userNum clusterID =
      (if items.countP (fun i => !specCompliant L i) = 0 then none
       else some (Err.nodesMissingRole (items.countP (fun i => !specCompliant L i)) clusterID),
       { jar := setCookies w.jar resp.setCookies,
         cursor := w.cursor + 1,
         events := w.events ++ [Event.sent (CheckLabels.nodesRequest host clusterID)] ++
           (items.filter (fun i => !specCompliant L i)).map (specWarning L userNum clusterID) ++
           (if items.all (specCompliant L) = true then
              [Event.printed (Line.clusterSummary userNum CheckLabels.statusAllFound clusterID
                items.length)]
            else []) }) := by
  unfold CheckLabels.checkNodeLabels
  simp only [hurl, clientDo, World.exchanged, hresp, hstatus, hdec,
    CheckLabels.foldl_nodeStep]
  by_cases hall : items.all (specCompliant L) = true
  · have hcount : items.countP (fun i => !specCompliant L i) = 0 := by
      rw [List.countP_eq_zero]
      intro i hi
      have := (List.all_eq_true.1 hall) i hi
      simp [this]
    simp [hall, hcount, World.print, CheckLabels.nodesRequest]
  · have hcount : items.countP (fun i => !specCompliant L i) ≠ 0 := by
      intro h0
      apply hall
      rw [List.all_eq_true]
      intro i hi
      have := (List.countP_eq_zero.1 h0) i hi
      simpa using this
    have hpos : 0 < items.countP (fun i => !specCompliant L i) := Nat.pos_of_ne_zero hcount
    simp [hall, hcount, hpos, CheckLabels.statusMissing_ne, CheckLabels.nodesRequest]

/-- C2: when the node request of a cluster is answered with status 200 and a decodable body,
`checkNodeLabels` returns nil exactly when every node of the list is compliant; an empty
list gives nil; and a returned error carries the number of non-compliant nodes. -/
theorem CheckLabels.checkNodeLabels_nil_iff (env : Env) (L : List String) (w : World)
    (host : String) (userNum : Int) (clusterID : String) (resp : Response)
    (items : List NodeItem)
    (hurl : env.newRequestOk (CheckLabels.nodesURL host clusterID) = true)
    (hresp : env.srv w.cursor = .ok resp) (hstatus : resp.StatusCode = 200)
    (hdec : env.decodeNodeList resp.Body = .ok items) :
    ((CheckLabels.checkNodeLabels env L w host userNum clusterID).1 = none ↔
      ∀ item ∈ items, specCompliant L item = true) ∧
    (items = [] → (CheckLabels.checkNodeLabels env L w host userNum clusterID).1 = none) ∧
    (∀ e, (CheckLabels.checkNodeLabels env L w host userNum clusterID).1 = some e →
      e = Err.nodesMissingRole (items.countP (fun i => !specCompliant L i)) clusterID) := by
  rw [CheckLabels.checkNodeLabels_ok env L w host userNum clusterID resp items hurl hresp
    hstatus hdec]
  refine ⟨?_, ?_, ?_⟩
  · by_cases h0 : items.countP (fun i => !specCompliant L i) = 0
    · simp only [h0, if_true, true_iff]
      intro i hi
      simpa using (List.countP_eq_zero.1 h0) i hi
    · simp only [h0, if_false]
      refine ⟨fun h => Option.noConfusion h, fun hall => absurd ?_ h0⟩
      rw [List.countP_eq_zero]
      intro i hi
      simp [hall i hi]
  · intro hnil
    subst hnil
    simp
  · intro e he
    by_cases h0 : items.countP (fun i => !specCompliant L i) = 0
    · simp [h0] at he
    · simp only [h0, if_false, Option.some.injEq] at he
      exact he.symm

/-- Cluster `c-1` of the concrete run: one of its two nodes lacks every required label, so
the check fails with count 1. -/
theorem CheckLabels.checkNodeLabels_nil_iff_witness :
    demoEnv.newRequestOk (CheckLabels.nodesURL "h" "c-1") = true ∧
    demoEnv.srv (worldAt 4).cursor =
      .ok { StatusCode := 200, Body := "nodes", setCookies := [] } ∧
    demoEnv.decodeNodeList "nodes" = .ok demoNodes ∧
    (CheckLabels.checkNodeLabels demoEnv demoLabels (worldAt 4) "h" 1 "c-1").1 =
      some (Err.nodesMissingRole 1 "c-1") ∧
    ¬ (∀ item ∈ demoNodes, specCompliant demoLabels item = true) :=
  have h := CheckLabels.checkNodeLabels_nil_iff demoEnv demoLabels (worldAt 4) "h" 1 "c-1"
    { StatusCode := 200, Body := "nodes", setCookies := [] } demoNodes rfl rfl rfl rfl
  ⟨rfl, rfl, rfl, by decide, fun hall => absurd (h.1.2 hall) (by decide)⟩

/-- C3: when the node request of a cluster is answered with status 200 and a decodable body,
the warnings `checkNodeLabels` prints are exactly one per non-compliant node, in the order
of the node list and none for a compliant node; each carries the missing-label list
`L \ M.keys()` and the node's full label map; and for a non-compliant node that list is the
whole of `L`, in the order of `L`. -/
theorem CheckLabels.checkNodeLabels_warnings (env : Env) (L : List String) (w : World)
    (host : String) (userNum : Int) (clusterID : String) (resp : Response)
    (items : List NodeItem)
    (hurl : env.newRequestOk (CheckLabels.nodesURL host clusterID) = true)
    (hresp : env.srv w.cursor = .ok resp) (hstatus : resp.StatusCode = 200)
    (hdec : env.decodeNodeList resp.Body = .ok items) :
    (CheckLabels.checkNodeLabels env L w host userNum clusterID).2.events.filter isWarning =
      w.events.filter isWarning ++
        (items.filter (fun i => !specCompliant L i)).map
          (fun item => Event.printed (Line.nodeMissing userNum item.Name clusterID
            (specMissing L item.Labels) item.Labels)) ∧
    (∀ item ∈ items, specCompliant L item = false → specMissing L item.Labels = L) := by
  rw [CheckLabels.checkNodeLabels_ok env L w host userNum clusterID resp items hurl hresp
    hstatus hdec]
  refine ⟨?_, fun item _ h => specMissing_of_not_compliant L item h⟩
  have hw : ∀ l : List NodeItem,
      (l.map (specWarning L userNum clusterID)).filter isWarning =
        l.map (fun item => Event.printed (Line.nodeMissing userNum item.Name clusterID
          (specMissing L item.Labels) item.Labels)) := by
    intro l
    induction l with
    | nil => rfl
    | cons a t ih =>
        rw [List.map_cons, List.map_cons, ← ih]
        simp [specWarning, isWarning, List.filter]
  simp only [List.filter_append, hw]
  by_cases hall : items.all (specCompliant L) = true
  · simp [hall, isWarning, List.filter]
  · simp [hall, isWarning, List.filter]

/-- The scenario of the specification: required labels `role/worker`, `role/control-plane`;
the node labelled `zone: us-east` is the only one warned about, and its missing list is both
required labels. -/
theorem CheckLabels.checkNodeLabels_warnings_witness :
    demoEnv.newRequestOk (CheckLabels.nodesURL "h" "c-1") = true ∧
    demoEnv.srv (worldAt 4).cursor =
      .ok { StatusCode := 200, Body := "nodes", setCookies := [] } ∧
    demoEnv.decodeNodeList "nodes" = .ok demoNodes ∧
    (CheckLabels.checkNodeLabels demoEnv demoLabels (worldAt 4) "h" 1 "c-1").2.events.filter
        isWarning =
      [Event.printed (Line.nodeMissing 1 "n2" "c-1" ["role/worker", "role/control-plane"]
        (some [("zone", "us-east")]))] :=
  ⟨rfl, rfl, rfl,
   (CheckLabels.checkNodeLabels_warnings demoEnv demoLabels (worldAt 4) "h" 1 "c-1"
      { StatusCode := 200, Body := "nodes", setCookies := [] } demoNodes rfl rfl rfl rfl).1.trans
     (by decide)⟩

/-! ## Cluster discovery (`getAllClusterIDs`) -/

theorem CheckLabels.collectStep_skip (acc : List String × List String) (item : ManagementNode)
    (h : item.Namespace = "" ∨ item.Namespace = "local" ∨ item.Namespace ∈ acc.1) :
    CheckLabels.collectStep acc item = acc := by
  unfold CheckLabels.collectStep
  by_cases he : item.Namespace = ""
  · simp [he]
  · by_cases hl : item.Namespace = "local"
    · simp [hl]
    · rcases h with h | h | h
      · exact absurd h he
      · exact absurd h hl
      · simp [he, hl, h]

theorem CheckLabels.collectStep_new (acc : List String × List String) (item : ManagementNode)
    (he : item.Namespace ≠ "") (hl : item.Namespace ≠ "local") (hin : item.Namespace ∉ acc.1) :
    CheckLabels.collectStep acc item = (item.Namespace :: acc.1, acc.2 ++ [item.Namespace]) := by
  unfold CheckLabels.collectStep
  simp [he, hl, hin]

/-- What the loop of `getAllClusterIDs` maintains: the keys of `idMap` are the collected
IDs; the collected IDs are the namespaces seen so far other than "local" and the empty
string; none is repeated; and they stand in the order of their first occurrence. -/
theorem CheckLabels.collect_invariant (data : List ManagementNode) :
    (∀ x, x ∈ (data.foldl CheckLabels.collectStep ([], [])).1 ↔
      x ∈ (data.foldl CheckLabels.collectStep ([], [])).2) ∧
    (∀ x, x ∈ (data.foldl CheckLabels.collectStep ([], [])).2 ↔
      (x ∈ namespaces data ∧ x ≠ "local" ∧ x ≠ "")) ∧
    (data.foldl CheckLabels.collectStep ([], [])).2.Nodup ∧
    (data.foldl CheckLabels.collectStep ([], [])).2.Pairwise
      (fun a b => (namespaces data).indexOf a < (namespaces data).indexOf b) := by
  induction data using List.reverseRecOn with
  | nil => simp [namespaces]
  | append_singleton l item ih =>
      obtain ⟨hmap, hmem, hnd, hord⟩ := ih
      have hns : namespaces (l ++ [item]) = namespaces l ++ [item.Namespace] := by
        simp [namespaces]
      have hkeep : ∀ a, a ∈ (l.foldl CheckLabels.collectStep ([], [])).2 →
          (namespaces (l ++ [item])).indexOf a = (namespaces l).indexOf a := by
        intro a ha
        rw [hns, List.indexOf_append_of_mem ((hmem a).1 ha).1]
      have hord2 : (l.foldl CheckLabels.collectStep ([], [])).2.Pairwise
          (fun a b => (namespaces (l ++ [item])).indexOf a <
            (namespaces (l ++ [item])).indexOf b) := by
        refine hord.imp_of_mem ?_
        intro a b ha hb hab
        rw [hkeep a ha, hkeep b hb]
        exact hab
      rw [List.foldl_append, List.foldl_cons, List.foldl_nil]
      by_cases he : item.Namespace = ""
      · rw [CheckLabels.collectStep_skip _ _ (Or.inl he)]
        refine ⟨hmap, ?_, hnd, hord2⟩
        intro x
        rw [hmem x, hns, he]
        simp only [List.mem_append, List.mem_singleton]
        constructor
        · rintro ⟨h1, h2, h3⟩; exact ⟨Or.inl h1, h2, h3⟩
        · rintro ⟨h1 | h1, h2, h3⟩
          · exact ⟨h1, h2, h3⟩
          · exact absurd h1 h3
      · by_cases hl : item.Namespace = "local"
        · rw [CheckLabels.collectStep_skip _ _ (Or.inr (Or.inl hl))]
          refine ⟨hmap, ?_, hnd, hord2⟩
          intro x
          rw [hmem x, hns, hl]
          simp only [List.mem_append, List.mem_singleton]
          constructor
          · rintro ⟨h1, h2, h3⟩; exact ⟨Or.inl h1, h2, h3⟩
          · rintro ⟨h1 | h1, h2, h3⟩
            · exact ⟨h1, h2, h3⟩
            · exact absurd h1 h2
        · by_cases hin : item.Namespace ∈ (l.foldl CheckLabels.collectStep ([], [])).1
          · rw [CheckLabels.collectStep_skip _ _ (Or.inr (Or.inr hin))]
            refine ⟨hmap, ?_, hnd, hord2⟩
            intro x
            rw [hmem x, hns]
            simp only [List.mem_append, List.mem_singleton]
            constructor
            · rintro ⟨h1, h2, h3⟩; exact ⟨Or.inl h1, h2, h3⟩
            · rintro ⟨h1 | h1, h2, h3⟩
              · exact ⟨h1, h2, h3⟩
              · subst h1
                exact ⟨((hmem _).1 ((hmap _).1 hin)).1, h2, h3⟩
          · rw [CheckLabels.collectStep_new _ _ he hl hin]
            have hnotu : item.Namespace ∉ (l.foldl CheckLabels.collectStep ([], [])).2 :=
              fun h => hin ((hmap _).2 h)
            have hnotl : item.Namespace ∉ namespaces l :=
              fun h => hnotu ((hmem _).2 ⟨h, hl, he⟩)
            refine ⟨?_, ?_, ?_, ?_⟩
            · intro x
              simp only [List.mem_cons, List.mem_append, List.mem_singleton, hmap x,
                List.not_mem_nil, or_false]
              exact or_comm
            · intro x
              simp only [List.mem_append, List.mem_singleton, hmem x, hns]
              constructor
              · rintro (⟨h1, h2, h3⟩ | h1)
                · exact ⟨Or.inl h1, h2, h3⟩
                · subst h1; exact ⟨Or.inr rfl, hl, he⟩
              · rintro ⟨h1 | h1, h2, h3⟩
                · exact Or.inl ⟨h1, h2, h3⟩
                · exact Or.inr h1
            · rw [List.nodup_append]
              refine ⟨hnd, List.nodup_singleton _, ?_⟩
              intro a ha hb
              rw [List.mem_singleton] at hb
              subst hb
              exact hnotu ha
            · rw [List.pairwise_append]
              refine ⟨hord2, List.pairwise_singleton _ _, ?_⟩
              intro a ha b hb
              rw [List.mem_singleton] at hb
              subst hb
              rw [hkeep a ha, hns, List.indexOf_append_of_not_mem hnotl]
              have := List.indexOf_lt_length.2 ((hmem a).1 ha).1
              omega

/-- Closed form of `getAllClusterIDs` when the inventory request is answered with status 200
and a decodable body. -/
theorem CheckLabels.getAllClusterIDs_ok (env : Env) (w : World) (host : String)
    (resp : Response) (data : List ManagementNode)
    (hurl : env.newRequestOk (host ++ CheckLabels.ManagementNodeAPI) = true)
    (hresp : env.srv w.cursor = .ok resp) (hstatus : resp.StatusCode = 200)
    (hdec : env.decodeManagementNodeList resp.Body = .ok data) :
    CheckLabels.getAllClusterIDs env w host =
      (.ok (CheckLabels.collectClusterIDs data),
       { jar := setCookies w.jar resp.setCookies,
         cursor := w.cursor + 1,
         events := w.events ++ [Event.sent (CheckLabels.inventoryRequest host)] }) := by
  unfold CheckLabels.getAllClusterIDs
  simp [hurl, clientDo, World.exchanged, hresp, hstatus, hdec, CheckLabels.inventoryRequest]

/-- C4: for every decoded inventory, with any duplicates among its namespaces, the list
`getAllClusterIDs` returns does not contain "local" and contains no identifier twice. -/
theorem CheckLabels.getAllClusterIDs_no_local_nodup (env : Env) (w : World) (host : String)
    (resp : Response) (data : List ManagementNode)
    (hurl : env.newRequestOk (host ++ CheckLabels.ManagementNodeAPI) = true)
    (hresp : env.srv w.cursor = .ok resp) (hstatus : resp.StatusCode = 200)
    (hdec : env.decodeManagementNodeList resp.Body = .ok data) :
    ∃ ids, (CheckLabels.getAllClusterIDs env w host).1 = .ok ids ∧
      "local" ∉ ids ∧ ids.Nodup := by
  refine ⟨CheckLabels.collectClusterIDs data, ?_, ?_, ?_⟩
  · rw [CheckLabels.getAllClusterIDs_ok env w host resp data hurl hresp hstatus hdec]
  · intro h
    exact ((CheckLabels.collect_invariant data).2.1 "local").1 h |>.2.1 rfl
  · exact (CheckLabels.collect_invariant data).2.2.1

/-- The inventory `local, c-1, c-1, c-2`: the returned list has neither "local" nor a
repetition. -/
theorem CheckLabels.getAllClusterIDs_no_local_nodup_witness :
    demoEnv.newRequestOk ("h" ++ CheckLabels.ManagementNodeAPI) = true ∧
    demoEnv.srv (worldAt 3).cursor =
      .ok { StatusCode := 200, Body := "inventory", setCookies := [] } ∧
    demoEnv.decodeManagementNodeList "inventory" = .ok demoInventory ∧
    ∃ ids, (CheckLabels.getAllClusterIDs demoEnv (worldAt 3) "h").1 = .ok ids ∧
      "local" ∉ ids ∧ ids.Nodup :=
  ⟨rfl, rfl, rfl,
   CheckLabels.getAllClusterIDs_no_local_nodup demoEnv (worldAt 3) "h"
     { StatusCode := 200, Body := "inventory", setCookies := [] } demoInventory
     rfl rfl rfl rfl⟩

/-- C5: for every decoded inventory, `getAllClusterIDs` returns the namespaces of its rows
other than "local" and the empty string: each of them is in the result, nothing else is,
none is repeated, and they are ordered by the position of their first occurrence in the
inventory. -/
theorem CheckLabels.getAllClusterIDs_first_seen (env : Env) (w : World) (host : String)
    (resp : Response) (data : List ManagementNode)
    (hurl : env.newRequestOk (host ++ CheckLabels.ManagementNodeAPI) = true)
    (hresp : env.srv w.cursor = .ok resp) (hstatus : resp.StatusCode = 200)
    (hdec : env.decodeManagementNodeList resp.Body = .ok data) :
    ∃ ids, (CheckLabels.getAllClusterIDs env w host).1 = .ok ids ∧
      (∀ x, x ∈ ids ↔ (x ∈ namespaces data ∧ x ≠ "local" ∧ x ≠ "")) ∧
      ids.Nodup ∧
      ids.Pairwise (fun a b => (namespaces data).indexOf a < (namespaces data).indexOf b) := by
  refine ⟨CheckLabels.collectClusterIDs data, ?_, ?_, ?_, ?_⟩
  · rw [CheckLabels.getAllClusterIDs_ok env w host resp data hurl hresp hstatus hdec]
  · exact (CheckLabels.collect_invariant data).2.1
  · exact (CheckLabels.collect_invariant data).2.2.1
  · exact (CheckLabels.collect_invariant data).2.2.2

/-- The scenario of the specification: the namespaces `local, c-1, c-1, c-2` yield
`c-1, c-2`. -/
theorem CheckLabels.getAllClusterIDs_first_seen_witness :
    demoEnv.newRequestOk ("h" ++ CheckLabels.ManagementNodeAPI) = true ∧
    demoEnv.srv (worldAt 3).cursor =
      .ok { StatusCode := 200, Body := "inventory", setCookies := [] } ∧
    demoEnv.decodeManagementNodeList "inventory" = .ok demoInventory ∧
    namespaces demoInventory = ["local", "c-1", "c-1", "c-2"] ∧
    (CheckLabels.getAllClusterIDs demoEnv (worldAt 3) "h").1 = .ok ["c-1", "c-2"] ∧
    ∃ ids, (CheckLabels.getAllClusterIDs demoEnv (worldAt 3) "h").1 = .ok ids ∧
      (∀ x, x ∈ ids ↔ (x ∈ namespaces demoInventory ∧ x ≠ "local" ∧ x ≠ "")) ∧
      ids.Nodup ∧
      ids.Pairwise
        (fun a b => (namespaces demoInventory).indexOf a < (namespaces demoInventory).indexOf b) :=
  ⟨rfl, rfl, rfl, rfl, rfl,
   CheckLabels.getAllClusterIDs_first_seen demoEnv (worldAt 3) "h"
     { StatusCode := 200, Body := "inventory", setCookies := [] } demoInventory
     rfl rfl rfl rfl⟩

/-! ## The login handshake gates the audit -/

/-- The flow is the handshake followed, when it succeeds, by the audit. -/
theorem CheckLabels.executeLoginFlow_eq (env : Env) (L : List String) (w : World)
    (host username password : String) (userNum : Int) :
    CheckLabels.executeLoginFlow env L w host username password userNum =
      match CheckLabels.handshake env w host username password with
      | (some err, w3) => (some err, w3)
      | (none, w3) => CheckLabels.audit env L w3 host userNum := by
  unfold CheckLabels.executeLoginFlow CheckLabels.handshake CheckLabels.audit
  rcases CheckLabels.getCSRFToken env w host with ⟨r0, w1⟩
  cases r0 with
  | error e => rfl
  | ok tok =>
      simp only
      rcases CheckLabels.postLogin env w1 host username password tok with ⟨r1, w2⟩
      cases r1 with
      | some e => rfl
      | none =>
          simp only
          rcases CheckLabels.validateSession env w2 host with ⟨r2, w3⟩
          cases r2 with
          | some e => rfl
          | none => rfl

/-- A successful token fetch: the reply was a 200 response and the jar holds the token. -/
theorem CheckLabels.getCSRFToken_ok_inv (env : Env) (w w1 : World) (host tok : String)
    (h : CheckLabels.getCSRFToken env w host = (.ok tok, w1)) :
    ∃ r, env.srv w.cursor = .ok r ∧ r.StatusCode = 200 ∧
      w1 = w.exchanged (CheckLabels.csrfRequest host) r.setCookies ∧
      findCookie w1.jar "CSRF" = some tok := by
  unfold CheckLabels.getCSRFToken clientDo at h
  by_cases hu : env.newRequestOk (CheckLabels.csrfURL host) = false
  · simp [hu] at h
  · cases hs : env.srv w.cursor with
    | error e => simp [hu, hs] at h
    | ok r =>
        by_cases hst : r.StatusCode = 200
        · cases hc : findCookie (w.exchanged (CheckLabels.csrfRequest host) r.setCookies).jar
              "CSRF" with
          | none =>
              simp [hu, hs, hst, CheckLabels.csrfRequest] at h hc
              simp [hc] at h
          | some v =>
              simp [hu, hs, hst, CheckLabels.csrfRequest] at h hc
              simp [hc] at h
              refine ⟨r, rfl, hst, ?_, ?_⟩
              · rw [← h.2]; rfl
              · rw [← h.2, ← h.1]; exact hc
        · simp [hu, hs, hst] at h

/-- A successful login: the reply was a 200 response. -/
theorem CheckLabels.postLogin_ok_inv (env : Env) (w w1 : World)
    (host username password tok : String)
    (h : CheckLabels.postLogin env w host username password tok = (none, w1)) :
    ∃ r, env.srv w.cursor = .ok r ∧ r.StatusCode = 200 ∧
      w1 = w.exchanged (CheckLabels.loginRequest host username password tok) r.setCookies := by
  unfold CheckLabels.postLogin clientDo at h
  cases hu : env.newRequestOk (CheckLabels.loginURL host) with
  | false => simp [hu] at h
  | true =>
      cases hs : env.srv w.cursor with
      | error e => simp [hu, hs] at h
      | ok r =>
          by_cases hst : r.StatusCode = 200
          · simp only [hu, hs, hst, Bool.true_eq_false, if_false, ne_eq, not_true_eq_false] at h
            split_ifs at h with hr
            · injection h with h1 h2
              cases h1
            · injection h with h1 h2
              exact ⟨r, rfl, hst, h2.symm⟩
          · simp [hu, hs, hst] at h

/-- A successful session probe: the reply was a 200 response. -/
theorem CheckLabels.validateSession_ok_inv (env : Env) (w w1 : World) (host : String)
    (h : CheckLabels.validateSession env w host = (none, w1)) :
    ∃ r, env.srv w.cursor = .ok r ∧ r.StatusCode = 200 ∧
      w1 = w.exchanged (CheckLabels.usersRequest host) r.setCookies := by
  unfold CheckLabels.validateSession clientDo at h
  by_cases hu : env.newRequestOk (CheckLabels.usersURL host) = false
  · simp [hu] at h
  · cases hs : env.srv w.cursor with
    | error e => simp [hu, hs] at h
    | ok r =>
        by_cases hst : r.StatusCode = 200
        · simp [hu, hs, hst] at h
          exact ⟨r, rfl, hst, by rw [← h]; rfl⟩
        · simp [hu, hs, hst] at h

/-- The token fetch performs at most one exchange, with the token-fetch request. -/
theorem CheckLabels.getCSRFToken_world (env : Env) (w : World) (host : String) :
    (CheckLabels.getCSRFToken env w host).2 = w ∨
    ∃ cs, (CheckLabels.getCSRFToken env w host).2 =
      w.exchanged (CheckLabels.csrfRequest host) cs := by
  unfold CheckLabels.getCSRFToken clientDo
  cases hu : env.newRequestOk (CheckLabels.csrfURL host) with
  | false => left; simp [hu]
  | true =>
      right
      cases hs : env.srv w.cursor with
      | error e => exact ⟨[], by simp [hu, hs, CheckLabels.csrfRequest]⟩
      | ok r =>
          refine ⟨r.setCookies, ?_⟩
          by_cases hst : r.StatusCode = 200
          · simp only [hu, hs, hst, Bool.true_eq_false, if_false, ne_eq, not_true_eq_false]
            split <;> rfl
          · simp [hu, hs, hst, CheckLabels.csrfRequest]

/-- The login performs at most one exchange, with the login request. -/
theorem CheckLabels.postLogin_world (env : Env) (w : World)
    (host username password tok : String) :
    (CheckLabels.postLogin env w host username password tok).2 = w ∨
    ∃ cs, (CheckLabels.postLogin env w host username password tok).2 =
      w.exchanged (CheckLabels.loginRequest host username password tok) cs := by
  unfold CheckLabels.postLogin clientDo
  cases hu : env.newRequestOk (CheckLabels.loginURL host) with
  | false => left; simp [hu]
  | true =>
      right
      cases hs : env.srv w.cursor with
      | error e => exact ⟨[], by simp [hu, hs, CheckLabels.loginRequest]⟩
      | ok r =>
          refine ⟨r.setCookies, ?_⟩
          by_cases hst : r.StatusCode = 200
          · simp only [hu, hs, hst, Bool.true_eq_false, if_false, ne_eq, not_true_eq_false]
            split <;> rfl
          · simp [hu, hs, hst, CheckLabels.loginRequest]

/-- The session probe performs at most one exchange, with the probe request. -/
theorem CheckLabels.validateSession_world (env : Env) (w : World) (host : String) :
    (CheckLabels.validateSession env w host).2 = w ∨
    ∃ cs, (CheckLabels.validateSession env w host).2 =
      w.exchanged (CheckLabels.usersRequest host) cs := by
  unfold CheckLabels.validateSession clientDo
  cases hu : env.newRequestOk (CheckLabels.usersURL host) with
  | false => left; simp [hu]
  | true =>
      right
      cases hs : env.srv w.cursor with
      | error e => exact ⟨[], by simp [hu, hs, CheckLabels.usersRequest]⟩
      | ok r =>
          refine ⟨r.setCookies, ?_⟩
          by_cases hst : r.StatusCode = 200
          · simp [hu, hs, hst, CheckLabels.usersRequest]
          · simp [hu, hs, hst, CheckLabels.usersRequest]

/-- What a successful handshake went through: three 200 replies, in order, to the
token-fetch, login and probe requests. -/
theorem CheckLabels.handshake_ok_inv (env : Env) (w w3 : World)
    (host username password : String)
    (h : CheckLabels.handshake env w host username password = (none, w3)) :
    ∃ r0 r1 r2 tok,
      env.srv w.cursor = .ok r0 ∧ r0.StatusCode = 200 ∧
      env.srv (w.cursor + 1) = .ok r1 ∧ r1.StatusCode = 200 ∧
      env.srv (w.cursor + 2) = .ok r2 ∧ r2.StatusCode = 200 ∧
      w3 = ((w.exchanged (CheckLabels.csrfRequest host) r0.setCookies).exchanged
              (CheckLabels.loginRequest host username password tok) r1.setCookies).exchanged
              (CheckLabels.usersRequest host) r2.setCookies := by
  unfold CheckLabels.handshake at h
  cases hq0 : CheckLabels.getCSRFToken env w host with
  | mk q0 w1 =>
    cases q0 with
    | error e => simp [hq0] at h
    | ok tok =>
      simp only [hq0] at h
      cases hq1 : CheckLabels.postLogin env w1 host username password tok with
      | mk q1 w2 =>
        cases q1 with
        | some e => simp [hq1] at h
        | none =>
          simp only [hq1] at h
          cases hq2 : CheckLabels.validateSession env w2 host with
          | mk q2 w3b =>
            cases q2 with
            | some e => simp [hq2] at h
            | none =>
              simp only [hq2, Prod.mk.injEq, true_and] at h
              subst h
              obtain ⟨r0, hr0, hs0, hw1, _⟩ := CheckLabels.getCSRFToken_ok_inv env w w1 host tok hq0
              obtain ⟨r1, hr1, hs1, hw2⟩ :=
                CheckLabels.postLogin_ok_inv env w1 w2 host username password tok hq1
              obtain ⟨r2, hr2, hs2, hw3⟩ := CheckLabels.validateSession_ok_inv env w2 w3b host hq2
              subst hw1
              subst hw2
              exact ⟨r0, r1, r2, tok, hr0, hs0, hr1, hs1, hr2, hs2, hw3⟩

/-- A rejected login or a rejected session probe makes the handshake fail. -/
theorem CheckLabels.handshake_rejected (env : Env) (w : World)
    (host username password : String)
    (h : (∃ r, env.srv (w.cursor + 1) = .ok r ∧ r.StatusCode ≠ 200) ∨
         (∃ r, env.srv (w.cursor + 2) = .ok r ∧ r.StatusCode ≠ 200)) :
    (CheckLabels.handshake env w host username password).1 ≠ none := by
  intro hnone
  have hpair : CheckLabels.handshake env w host username password =
      (none, (CheckLabels.handshake env w host username password).2) := by
    rw [← hnone]
  obtain ⟨r0, r1, r2, tok, _, _, hr1, hs1, hr2, hs2, _⟩ :=
    CheckLabels.handshake_ok_inv env w _ host username password hpair
  rcases h with ⟨r, hr, hs⟩ | ⟨r, hr, hs⟩
  · rw [hr1] at hr
    cases hr
    exact hs hs1
  · rw [hr2] at hr
    cases hr
    exact hs hs2

/-! ### The handshake URLs are not cluster queries -/

theorem string_append_cancel (h a b : String) (e : h ++ a = h ++ b) : a = b := by
  have hd := congrArg String.data e
  simp only [String.data_append, List.append_cancel_left_eq] at hd
  exact String.ext hd

theorem CheckLabels.nodesURL_eq (host clusterID : String) :
    CheckLabels.nodesURL host clusterID =
      host ++ ("/k8s/clusters/" ++ (clusterID ++ "/api/v1/nodes?page=1&pagesize=100")) := by
  simp [CheckLabels.nodesURL, String.append_assoc]

/-- A request for `host ++ suffix` is no cluster query when the suffix is neither the
inventory path nor begins like the proxy path. -/
theorem not_isClusterQuery_of_suffix (host suffix : String) (req : Request)
    (hreq : req.url = host ++ suffix)
    (h1 : suffix ≠ CheckLabels.ManagementNodeAPI)
    (h2 : suffix.data.take 2 ≠ ['/', 'k']) :
    ¬ isClusterQuery host (Event.sent req) := by
  simp only [isClusterQuery, hreq]
  rintro (h | ⟨c, h⟩)
  · exact h1 (string_append_cancel _ _ _ h)
  · rw [CheckLabels.nodesURL_eq] at h
    have h3 := string_append_cancel _ _ _ h
    apply h2
    rw [h3]
    rfl

theorem CheckLabels.csrfRequest_not_query (host : String) :
    ¬ isClusterQuery host (Event.sent (CheckLabels.csrfRequest host)) :=
  not_isClusterQuery_of_suffix host _ _ rfl (by decide) (by decide)

theorem CheckLabels.loginRequest_not_query (host username password tok : String) :
    ¬ isClusterQuery host
      (Event.sent (CheckLabels.loginRequest host username password tok)) :=
  not_isClusterQuery_of_suffix host _ _ rfl (by decide) (by decide)

theorem CheckLabels.usersRequest_not_query (host : String) :
    ¬ isClusterQuery host (Event.sent (CheckLabels.usersRequest host)) :=
  not_isClusterQuery_of_suffix host _ _ rfl (by decide) (by decide)

/-! ### Cookies are never removed from the jar -/

theorem findCookie_setCookie_isSome (jar : List Cookie) (c : Cookie) (name : String) :
    (findCookie (setCookie jar c) name).isSome =
      ((findCookie jar name).isSome || decide (c.1 = name)) := by
  induction jar with
  | nil =>
      unfold setCookie findCookie
      by_cases h : c.1 = name <;> simp [h, findCookie]
  | cons d rest ih =>
      unfold setCookie
      by_cases hdc : d.1 = c.1
      · simp only [hdc, if_true]
        by_cases h : c.1 = name
        · simp [findCookie, h, hdc]
        · simp [findCookie, h, hdc]
      · simp only [hdc, if_false]
        by_cases h : d.1 = name
        · simp [findCookie, h]
        · simp [findCookie, h, ih]

theorem findCookie_setCookies_isSome (jar cs : List Cookie) (name : String) :
    (findCookie (setCookies jar cs) name).isSome =
      ((findCookie jar name).isSome || cs.any (fun c => decide (c.1 = name))) := by
  induction cs generalizing jar with
  | nil => simp [setCookies]
  | cons c rest ih =>
      have hstep : setCookies jar (c :: rest) = setCookies (setCookie jar c) rest := rfl
      rw [hstep, ih, findCookie_setCookie_isSome, List.any_cons, Bool.or_assoc]

/-- Storing the same cookies a second time does not change which names the jar holds. -/
theorem findCookie_setCookies_twice (jar cs : List Cookie) (name : String) :
    (findCookie (setCookies (setCookies jar cs) cs) name).isSome =
      (findCookie (setCookies jar cs) name).isSome := by
  rw [findCookie_setCookies_isSome (setCookies jar cs), findCookie_setCookies_isSome jar]
  cases (findCookie jar name).isSome <;> cases cs.any (fun c => decide (c.1 = name)) <;> rfl

/-! ### Closed forms of the three handshake steps -/

theorem CheckLabels.getCSRFToken_eq (env : Env) (w : World) (host : String) :
    CheckLabels.getCSRFToken env w host =
      if env.newRequestOk (CheckLabels.csrfURL host) = false then
        (.error (Err.newRequest (CheckLabels.csrfURL host)), w)
      else
        match env.srv w.cursor with
        | .error e => (.error (Err.transport e), w.exchanged (CheckLabels.csrfRequest host) [])
        | .ok r =>
            if r.StatusCode ≠ 200 then
              (.error (Err.csrfStatus r.StatusCode r.Body),
                w.exchanged (CheckLabels.csrfRequest host) r.setCookies)
            else
              match findCookie (setCookies w.jar r.setCookies) "CSRF" with
              | some value => (.ok value, w.exchanged (CheckLabels.csrfRequest host) r.setCookies)
              | none =>
                  (.error Err.csrfCookieNotFound,
                    w.exchanged (CheckLabels.csrfRequest host) r.setCookies) := by
  unfold CheckLabels.getCSRFToken clientDo
  cases hs : env.srv w.cursor <;> rfl

theorem CheckLabels.postLogin_eq (env : Env) (w : World)
    (host username password tok : String) :
    CheckLabels.postLogin env w host username password tok =
      if env.newRequestOk (CheckLabels.loginURL host) = false then
        (some (Err.newRequest (CheckLabels.loginURL host)), w)
      else
        match env.srv w.cursor with
        | .error e =>
            (some (Err.transport e),
              w.exchanged (CheckLabels.loginRequest host username password tok) [])
        | .ok r =>
            if r.StatusCode ≠ 200 then
              (some (Err.loginStatus r.StatusCode r.Body),
                w.exchanged (CheckLabels.loginRequest host username password tok) r.setCookies)
            else if (findCookie (setCookies w.jar r.setCookies) "R_SESS").getD "" = "" then
              (some Err.rSessMissing,
                w.exchanged (CheckLabels.loginRequest host username password tok) r.setCookies)
            else
              (none,
                w.exchanged (CheckLabels.loginRequest host username password tok)
                  r.setCookies) := by
  unfold CheckLabels.postLogin clientDo
  cases hs : env.srv w.cursor <;> rfl

theorem CheckLabels.validateSession_eq (env : Env) (w : World) (host : String) :
    CheckLabels.validateSession env w host =
      if env.newRequestOk (CheckLabels.usersURL host) = false then
        (some (Err.newRequest (CheckLabels.usersURL host)), w)
      else
        match env.srv w.cursor with
        | .error e => (some (Err.transport e), w.exchanged (CheckLabels.usersRequest host) [])
        | .ok r =>
            if r.StatusCode ≠ 200 then
              (some (Err.validationStatus r.StatusCode),
                w.exchanged (CheckLabels.usersRequest host) r.setCookies)
            else (none, w.exchanged (CheckLabels.usersRequest host) r.setCookies) := by
  unfold CheckLabels.validateSession clientDo
  cases hs : env.srv w.cursor <;> rfl

/-! ### The handshake depends on the client only through its jar and position -/

theorem CheckLabels.getCSRFToken_frame (env : Env) (w w' : World) (host : String)
    (hj : w'.jar = w.jar) (hc : w'.cursor = w.cursor) :
    (CheckLabels.getCSRFToken env w' host).1 = (CheckLabels.getCSRFToken env w host).1 ∧
    (CheckLabels.getCSRFToken env w' host).2.jar = (CheckLabels.getCSRFToken env w host).2.jar ∧
    (CheckLabels.getCSRFToken env w' host).2.cursor =
      (CheckLabels.getCSRFToken env w host).2.cursor := by
  rw [CheckLabels.getCSRFToken_eq, CheckLabels.getCSRFToken_eq, hc, hj]
  cases hu : env.newRequestOk (CheckLabels.csrfURL host) with
  | false => simp [hj, hc]
  | true =>
      cases hs : env.srv w.cursor with
      | error e => simp [World.exchanged, hj, hc]
      | ok r =>
          by_cases hst : r.StatusCode = 200
          · cases hf : findCookie (setCookies w.jar r.setCookies) "CSRF" <;>
              simp [hst, hf, World.exchanged, hj, hc]
          · simp [hst, World.exchanged, hj, hc]

theorem CheckLabels.postLogin_frame (env : Env) (w w' : World)
    (host username password tok : String)
    (hj : w'.jar = w.jar) (hc : w'.cursor = w.cursor) :
    (CheckLabels.postLogin env w' host username password tok).1 =
      (CheckLabels.postLogin env w host username password tok).1 ∧
    (CheckLabels.postLogin env w' host username password tok).2.jar =
      (CheckLabels.postLogin env w host username password tok).2.jar ∧
    (CheckLabels.postLogin env w' host username password tok).2.cursor =
      (CheckLabels.postLogin env w host username password tok).2.cursor := by
  rw [CheckLabels.postLogin_eq, CheckLabels.postLogin_eq, hc, hj]
  cases hu : env.newRequestOk (CheckLabels.loginURL host) with
  | false => simp [hj, hc]
  | true =>
      cases hs : env.srv w.cursor with
      | error e => simp [World.exchanged, hj, hc]
      | ok r =>
          by_cases hst : r.StatusCode = 200
          · by_cases hf : (findCookie (setCookies w.jar r.setCookies) "R_SESS").getD "" = ""
            · simp [hst, hf, World.exchanged, hj, hc]
            · simp [hst, hf, World.exchanged, hj, hc]
          · simp [hst, World.exchanged, hj, hc]

theorem CheckLabels.validateSession_frame (env : Env) (w w' : World) (host : String)
    (hj : w'.jar = w.jar) (hc : w'.cursor = w.cursor) :
    (CheckLabels.validateSession env w' host).1 = (CheckLabels.validateSession env w host).1 ∧
    (CheckLabels.validateSession env w' host).2.jar =
      (CheckLabels.validateSession env w host).2.jar ∧
    (CheckLabels.validateSession env w' host).2.cursor =
      (CheckLabels.validateSession env w host).2.cursor := by
  rw [CheckLabels.validateSession_eq, CheckLabels.validateSession_eq, hc]
  cases hu : env.newRequestOk (CheckLabels.usersURL host) with
  | false => simp [hj, hc]
  | true =>
      cases hs : env.srv w.cursor with
      | error e => simp [World.exchanged, hj, hc]
      | ok r =>
          by_cases hst : r.StatusCode = 200
          · simp [hst, World.exchanged, hj, hc]
          · simp [hst, World.exchanged, hj, hc]

/-- Two clients with the same jar at the same position get the same handshake result. -/
theorem CheckLabels.handshake_frame (env : Env) (w w' : World)
    (host username password : String)
    (hj : w'.jar = w.jar) (hc : w'.cursor = w.cursor) :
    (CheckLabels.handshake env w' host username password).1 =
      (CheckLabels.handshake env w host username password).1 := by
  obtain ⟨h01, h0j, h0c⟩ := CheckLabels.getCSRFToken_frame env w w' host hj hc
  unfold CheckLabels.handshake
  cases hq0 : CheckLabels.getCSRFToken env w host with
  | mk q0 w1 =>
    cases hq0' : CheckLabels.getCSRFToken env w' host with
    | mk q0' w1' =>
      rw [hq0, hq0'] at h01 h0j h0c
      simp only at h01 h0j h0c
      subst h01
      cases q0' with
      | error e => rfl
      | ok tok =>
        simp only
        obtain ⟨h11, h1j, h1c⟩ :=
          CheckLabels.postLogin_frame env w1 w1' host username password tok h0j h0c
        cases hq1 : CheckLabels.postLogin env w1 host username password tok with
        | mk q1 w2 =>
          cases hq1' : CheckLabels.postLogin env w1' host username password tok with
          | mk q1' w2' =>
            rw [hq1, hq1'] at h11 h1j h1c
            simp only at h11 h1j h1c
            subst h11
            cases q1' with
            | some e => rfl
            | none =>
              simp only
              obtain ⟨h21, _, _⟩ := CheckLabels.validateSession_frame env w2 w2' host h1j h1c
              cases hq2 : CheckLabels.validateSession env w2 host with
              | mk q2 w3 =>
                cases hq2' : CheckLabels.validateSession env w2' host with
                | mk q2' w3' =>
                  rw [hq2, hq2'] at h21
                  simp only at h21
                  subst h21
                  cases q2' <;> rfl

/-! ### Running the handshake again with the client the first run left behind -/

theorem CheckLabels.getCSRFToken_again_error (env : Env) (w w1 wr : World) (host : String)
    (e : Err) (h : CheckLabels.getCSRFToken env w host = (.error e, w1))
    (hc : wr.cursor = w.cursor) (hj : wr.jar = w1.jar) :
    (CheckLabels.getCSRFToken env wr host).1 = .error e := by
  rw [CheckLabels.getCSRFToken_eq] at h ⊢
  rw [hc]
  cases hu : env.newRequestOk (CheckLabels.csrfURL host) with
  | false =>
      simp only [hu, if_true, Prod.mk.injEq, Except.error.injEq] at h ⊢
      rw [h.1]
  | true =>
      cases hs : env.srv w.cursor with
      | error e0 =>
          simp only [hu, hs, Bool.true_eq_false, if_false, Prod.mk.injEq,
            Except.error.injEq] at h ⊢
          rw [h.1]
      | ok r =>
          by_cases hst : r.StatusCode = 200
          · cases hf : findCookie (setCookies w.jar r.setCookies) "CSRF" with
            | some v => simp [hu, hs, hst, hf] at h
            | none =>
                simp only [hu, hs, hst, hf, Bool.true_eq_false, if_false, ne_eq,
                  not_true_eq_false, Prod.mk.injEq, Except.error.injEq] at h ⊢
                have hjar : wr.jar = setCookies w.jar r.setCookies := by
                  rw [hj, ← h.2]; rfl
                have hnone : findCookie (setCookies wr.jar r.setCookies) "CSRF" = none := by
                  have h2 := findCookie_setCookies_twice w.jar r.setCookies "CSRF"
                  rw [hf, ← hjar] at h2
                  cases hx : findCookie (setCookies wr.jar r.setCookies) "CSRF" with
                  | none => rfl
                  | some v => rw [hx] at h2; cases h2
                rw [hnone, h.1]
          · simp only [hu, hs, hst, Bool.true_eq_false, if_false, ne_eq, not_false_eq_true,
              if_true, Prod.mk.injEq, Except.error.injEq] at h ⊢
            rw [h.1]

theorem CheckLabels.getCSRFToken_again_ok (env : Env) (w w1 wr : World) (host tok : String)
    (h : CheckLabels.getCSRFToken env w host = (.ok tok, w1))
    (hc : wr.cursor = w.cursor) (hhas : (findCookie wr.jar "CSRF").isSome = true) :
    ∃ tok2 w2, CheckLabels.getCSRFToken env wr host = (.ok tok2, w2) ∧
      w2.cursor = w.cursor + 1 := by
  obtain ⟨r, hs, hst, _, _⟩ := CheckLabels.getCSRFToken_ok_inv env w w1 host tok h
  have hu : env.newRequestOk (CheckLabels.csrfURL host) = true := by
    cases hu : env.newRequestOk (CheckLabels.csrfURL host) with
    | true => rfl
    | false => rw [CheckLabels.getCSRFToken_eq] at h; simp [hu] at h
  have hsome : (findCookie (setCookies wr.jar r.setCookies) "CSRF").isSome = true := by
    rw [findCookie_setCookies_isSome, hhas]; rfl
  rw [CheckLabels.getCSRFToken_eq, hc]
  cases hf : findCookie (setCookies wr.jar r.setCookies) "CSRF" with
  | none => rw [hf] at hsome; cases hsome
  | some v =>
      refine ⟨v, wr.exchanged (CheckLabels.csrfRequest host) r.setCookies, ?_, ?_⟩
      · simp [hu, hs, hst, hf]
      · simp [World.exchanged, hc]

/-- A login answered with a status other than 200 fails with an error that depends only on
the reply (or on the URL, when the request cannot be built). -/
theorem CheckLabels.postLogin_rejected (env : Env) (w : World)
    (host username password tok : String) (r : Response)
    (hr : env.srv w.cursor = .ok r) (hs : r.StatusCode ≠ 200) :
    (CheckLabels.postLogin env w host username password tok).1 =
      some (if env.newRequestOk (CheckLabels.loginURL host) = false then
              Err.newRequest (CheckLabels.loginURL host)
            else Err.loginStatus r.StatusCode r.Body) := by
  rw [CheckLabels.postLogin_eq]
  cases hu : env.newRequestOk (CheckLabels.loginURL host) with
  | false => simp
  | true => simp [hr, hs]

/-! ### The per-cluster check depends on the world only through the reply it receives -/

theorem CheckLabels.checkNodeLabels_eq (env : Env) (L : List String) (w : World)
    (host : String) (userNum : Int) (clusterID : String) :
    CheckLabels.checkNodeLabels env L w host userNum clusterID =
      if env.newRequestOk (CheckLabels.nodesURL host clusterID) = false then
        (some (Err.newRequest (CheckLabels.nodesURL host clusterID)),
          w.print Line.newRequestFailed)
      else
        match env.srv w.cursor with
        | .error e =>
            (some (Err.transport e),
              (w.exchanged (CheckLabels.nodesRequest host clusterID) []).print Line.doFailed)
        | .ok r =>
            if r.StatusCode ≠ 200 then
              (some (Err.proxyStatus clusterID r.StatusCode r.Body),
                w.exchanged (CheckLabels.nodesRequest host clusterID) r.setCookies)
            else
              match env.decodeNodeList r.Body with
              | .error e =>
                  (some (Err.decodeNodeList clusterID (Err.json e)),
                    w.exchanged (CheckLabels.nodesRequest host clusterID) r.setCookies)
              | .ok items =>
                  (if items.countP (fun i => !specCompliant L i) = 0 then none
                   else some (Err.nodesMissingRole
                     (items.countP (fun i => !specCompliant L i)) clusterID),
                   { jar := setCookies w.jar r.setCookies,
                     cursor := w.cursor + 1,
                     events := w.events ++
                       [Event.sent (CheckLabels.nodesRequest host clusterID)] ++
                       (items.filter (fun i => !specCompliant L i)).map
                         (specWarning L userNum clusterID) ++
                       (if items.all (specCompliant L) = true then
                          [Event.printed (Line.clusterSummary userNum
                            CheckLabels.statusAllFound clusterID items.length)]
                        else []) }) := by
  cases hu : env.newRequestOk (CheckLabels.nodesURL host clusterID) with
  | false => simp [CheckLabels.checkNodeLabels, hu]
  | true =>
      cases hs : env.srv w.cursor with
      | error e =>
          simp [CheckLabels.checkNodeLabels, clientDo, hu, hs, CheckLabels.nodesRequest]
      | ok r =>
          by_cases hst : r.StatusCode = 200
          · cases hd : env.decodeNodeList r.Body with
            | error e =>
                simp [CheckLabels.checkNodeLabels, clientDo, hu, hs, hst, hd,
                  CheckLabels.nodesRequest]
            | ok items =>
                rw [CheckLabels.checkNodeLabels_ok env L w host userNum clusterID r items
                  hu hs hst hd]
                simp [hst, hd]
          · simp [CheckLabels.checkNodeLabels, clientDo, hu, hs, hst,
              CheckLabels.nodesRequest]

/-- A check run in any world returns what the same check returns when run alone, by a fresh
client, against the reply at the same position; it consumes as many replies and adds the
same events. -/
theorem CheckLabels.checkNodeLabels_solo (env : Env) (L : List String) (w : World)
    (host : String) (userNum : Int) (clusterID : String) :
    (CheckLabels.checkNodeLabels env L w host userNum clusterID).1 =
      (CheckLabels.checkNodeLabels env L (worldAt w.cursor) host userNum clusterID).1 ∧
    (CheckLabels.checkNodeLabels env L w host userNum clusterID).2.cursor =
      (CheckLabels.checkNodeLabels env L (worldAt w.cursor) host userNum clusterID).2.cursor ∧
    (CheckLabels.checkNodeLabels env L w host userNum clusterID).2.events =
      w.events ++
        (CheckLabels.checkNodeLabels env L (worldAt w.cursor) host userNum clusterID).2.events := by
  rw [CheckLabels.checkNodeLabels_eq, CheckLabels.checkNodeLabels_eq]
  have hcur : (worldAt w.cursor).cursor = w.cursor := rfl
  rw [hcur]
  cases hu : env.newRequestOk (CheckLabels.nodesURL host clusterID) with
  | false => simp [World.print, worldAt]
  | true =>
      cases hs : env.srv w.cursor with
      | error e => simp [World.print, World.exchanged, worldAt]
      | ok r =>
          by_cases hst : r.StatusCode = 200
          · cases hd : env.decodeNodeList r.Body with
            | error e => simp [hst, hd, World.exchanged, worldAt]
            | ok items => simp [hst, hd, worldAt]
          · simp [hst, World.exchanged, worldAt]

/-! ### The loop over the discovered clusters -/

/-- Closed form of the loop of `executeLoginFlow`: its error is the last error among the
checks of the clusters, each run on its own, and its trace is theirs in order. -/
theorem CheckLabels.checkClusters_solo (env : Env) (L : List String) (host : String)
    (userNum : Int) (ids : List String) (w : World) (acc : Option Err) :
    (CheckLabels.checkClusters env L host userNum ids w acc).1 =
      lastError acc (CheckLabels.soloChecks env L host userNum ids w.cursor) ∧
    (CheckLabels.checkClusters env L host userNum ids w acc).2.events =
      w.events ++
        CheckLabels.soloTrace userNum ids
          (CheckLabels.soloChecks env L host userNum ids w.cursor) := by
  induction ids generalizing w acc with
  | nil => simp [CheckLabels.checkClusters, CheckLabels.soloChecks, lastError,
      CheckLabels.soloTrace]
  | cons id rest ih =>
      obtain ⟨h1, h2, h3⟩ := CheckLabels.checkNodeLabels_solo env L w host userNum id
      unfold CheckLabels.checkClusters CheckLabels.soloChecks
      cases hq : CheckLabels.checkNodeLabels env L w host userNum id with
      | mk q w1 =>
        rw [hq] at h1 h2 h3
        simp only at h1 h2 h3
        cases q with
        | some err =>
            simp only
            have hc : (w1.print (Line.clusterErrors userNum id)).cursor =
                (CheckLabels.checkNodeLabels env L (worldAt w.cursor) host userNum id).2.cursor :=
              h2
            obtain ⟨ih1, ih2⟩ := ih (w1.print (Line.clusterErrors userNum id)) (some err)
            rw [ih1, ih2, hc]
            refine ⟨?_, ?_⟩
            · simp only [lastError, ← h1]
            · simp only [CheckLabels.soloTrace, ← h1, World.print, h3, Option.isSome_some,
                if_true, List.append_assoc]
        | none =>
            simp only
            obtain ⟨ih1, ih2⟩ := ih w1 acc
            rw [ih1, ih2, h2]
            refine ⟨?_, ?_⟩
            · simp only [lastError, ← h1]
            · simp only [CheckLabels.soloTrace, ← h1, h3, Option.isSome_none,
                Bool.false_eq_true, if_false, List.append_nil, List.append_assoc]

/-! ### What the handshake and the audit add to the trace -/

theorem newEvents_of_append (w w1 : World) (new : List Event)
    (h : w1.events = w.events ++ new) : newEvents w w1 = new := by
  unfold newEvents
  rw [h, List.drop_left]

theorem quietExtension_refl (host : String) (w : World) : quietExtension host w w :=
  ⟨[], by simp, by simp⟩

theorem quietExtension_trans (host : String) (w w1 w2 : World)
    (h1 : quietExtension host w w1) (h2 : quietExtension host w1 w2) :
    quietExtension host w w2 := by
  obtain ⟨n1, e1, q1⟩ := h1
  obtain ⟨n2, e2, q2⟩ := h2
  refine ⟨n1 ++ n2, by rw [e2, e1, List.append_assoc], ?_⟩
  intro e he
  rcases List.mem_append.1 he with h | h
  · exact q1 e h
  · exact q2 e h

theorem quietExtension_of_step (host : String) (w w1 : World) (req : Request)
    (hreq : ¬ isClusterQuery host (Event.sent req))
    (h : w1 = w ∨ ∃ cs, w1 = w.exchanged req cs) : quietExtension host w w1 := by
  rcases h with h | ⟨cs, h⟩
  · rw [h]; exact quietExtension_refl host w
  · refine ⟨[Event.sent req], by rw [h]; rfl, ?_⟩
    intro e he
    rw [List.mem_singleton] at he
    rw [he]
    exact hreq

/-- The handshake adds no cluster query to the trace. -/
theorem CheckLabels.handshake_quiet (env : Env) (w : World) (host username password : String) :
    quietExtension host w (CheckLabels.handshake env w host username password).2 := by
  unfold CheckLabels.handshake
  have h0 := CheckLabels.getCSRFToken_world env w host
  cases hq0 : CheckLabels.getCSRFToken env w host with
  | mk q0 w1 =>
    rw [hq0] at h0
    have e0 : quietExtension host w w1 :=
      quietExtension_of_step host w w1 _ (CheckLabels.csrfRequest_not_query host) h0
    cases q0 with
    | error e => exact e0
    | ok tok =>
      simp only
      have h1 := CheckLabels.postLogin_world env w1 host username password tok
      cases hq1 : CheckLabels.postLogin env w1 host username password tok with
      | mk q1 w2 =>
        rw [hq1] at h1
        have e1 : quietExtension host w w2 :=
          quietExtension_trans host w w1 w2 e0
            (quietExtension_of_step host w1 w2 _
              (CheckLabels.loginRequest_not_query host username password tok) h1)
        cases q1 with
        | some e => exact e1
        | none =>
          simp only
          have h2 := CheckLabels.validateSession_world env w2 host
          cases hq2 : CheckLabels.validateSession env w2 host with
          | mk q2 w3 =>
            rw [hq2] at h2
            have e2 : quietExtension host w w3 :=
              quietExtension_trans host w w2 w3 e1
                (quietExtension_of_step host w2 w3 _
                  (CheckLabels.usersRequest_not_query host) h2)
            cases q2 with
            | some e => exact e2
            | none => exact e2

/-- The handshake sends, in this order and each at most once, the token fetch, the login and
the session probe: what it adds to the trace is an initial segment of these three requests. -/
theorem CheckLabels.handshake_requests (env : Env) (w : World)
    (host username password : String) :
    ∃ tok new, (CheckLabels.handshake env w host username password).2.events =
        w.events ++ new ∧
      new <+: [Event.sent (CheckLabels.csrfRequest host),
               Event.sent (CheckLabels.loginRequest host username password tok),
               Event.sent (CheckLabels.usersRequest host)] := by
  unfold CheckLabels.handshake
  have h0 := CheckLabels.getCSRFToken_world env w host
  cases hq0 : CheckLabels.getCSRFToken env w host with
  | mk q0 w1 =>
    rw [hq0] at h0
    simp only at h0
    cases q0 with
    | error e =>
        refine ⟨"", ?_⟩
        rcases h0 with h | ⟨cs, h⟩
        · exact ⟨[], by rw [h]; simp, List.nil_prefix⟩
        · exact ⟨[Event.sent (CheckLabels.csrfRequest host)], by rw [h]; rfl,
            ⟨[_, _], rfl⟩⟩
    | ok tok =>
      refine ⟨tok, ?_⟩
      simp only
      obtain ⟨r0, _, _, hw1, _⟩ := CheckLabels.getCSRFToken_ok_inv env w w1 host tok hq0
      have h1 := CheckLabels.postLogin_world env w1 host username password tok
      cases hq1 : CheckLabels.postLogin env w1 host username password tok with
      | mk q1 w2 =>
        rw [hq1] at h1
        simp only at h1
        cases q1 with
        | some e =>
            rcases h1 with h | ⟨cs, h⟩
            · exact ⟨[Event.sent (CheckLabels.csrfRequest host)], by rw [h, hw1]; rfl,
                ⟨[_, _], rfl⟩⟩
            · exact ⟨[Event.sent (CheckLabels.csrfRequest host),
                  Event.sent (CheckLabels.loginRequest host username password tok)],
                by rw [h, hw1]; simp [World.exchanged], ⟨[_], rfl⟩⟩
        | none =>
          simp only
          obtain ⟨r1, _, _, hw2⟩ :=
            CheckLabels.postLogin_ok_inv env w1 w2 host username password tok hq1
          have h2 := CheckLabels.validateSession_world env w2 host
          have hfin : ∀ w3 : World,
              (w3 = w2 ∨ ∃ cs, w3 = w2.exchanged (CheckLabels.usersRequest host) cs) →
              ∃ new, w3.events = w.events ++ new ∧
                new <+: [Event.sent (CheckLabels.csrfRequest host),
                         Event.sent (CheckLabels.loginRequest host username password tok),
                         Event.sent (CheckLabels.usersRequest host)] := by
            intro w3 h3
            rcases h3 with h | ⟨cs, h⟩
            · exact ⟨[Event.sent (CheckLabels.csrfRequest host),
                  Event.sent (CheckLabels.loginRequest host username password tok)],
                by rw [h, hw2, hw1]; simp [World.exchanged], ⟨[_], rfl⟩⟩
            · exact ⟨_, by rw [h, hw2, hw1]; simp [World.exchanged], List.prefix_refl _⟩
          cases hq2 : CheckLabels.validateSession env w2 host with
          | mk q2 w3 =>
            rw [hq2] at h2
            simp only at h2
            cases q2 with
            | some e => exact hfin w3 h2
            | none => exact hfin w3 h2

/-- A failed handshake is the result of the whole flow. -/
theorem CheckLabels.executeLoginFlow_of_failed (env : Env) (L : List String) (w : World)
    (host username password : String) (userNum : Int)
    (h : (CheckLabels.handshake env w host username password).1 ≠ none) :
    CheckLabels.executeLoginFlow env L w host username password userNum =
      CheckLabels.handshake env w host username password := by
  rw [CheckLabels.executeLoginFlow_eq]
  cases hq : CheckLabels.handshake env w host username password with
  | mk q w3 =>
    cases q with
    | some e => rfl
    | none => rw [hq] at h; exact absurd rfl h

/-- A successful handshake hands over to the audit. -/
theorem CheckLabels.executeLoginFlow_of_ok (env : Env) (L : List String) (w w3 : World)
    (host username password : String) (userNum : Int)
    (h : CheckLabels.handshake env w host username password = (none, w3)) :
    CheckLabels.executeLoginFlow env L w host username password userNum =
      CheckLabels.audit env L w3 host userNum := by
  rw [CheckLabels.executeLoginFlow_eq, h]

theorem CheckLabels.getAllClusterIDs_world (env : Env) (w : World) (host : String) :
    (CheckLabels.getAllClusterIDs env w host).2 = w ∨
    ∃ cs, (CheckLabels.getAllClusterIDs env w host).2 =
      w.exchanged (CheckLabels.inventoryRequest host) cs := by
  unfold CheckLabels.getAllClusterIDs clientDo
  cases hu : env.newRequestOk (host ++ CheckLabels.ManagementNodeAPI) with
  | false => left; simp [hu]
  | true =>
      right
      cases hs : env.srv w.cursor with
      | error e => exact ⟨[], by simp [hu, hs, CheckLabels.inventoryRequest]⟩
      | ok r =>
          refine ⟨r.setCookies, ?_⟩
          by_cases hst : r.StatusCode = 200
          · cases hd : env.decodeManagementNodeList r.Body <;>
              simp [hu, hs, hst, hd, CheckLabels.inventoryRequest]
          · simp [hu, hs, hst, CheckLabels.inventoryRequest]

/-- The audit only extends the trace. -/
theorem CheckLabels.audit_extends (env : Env) (L : List String) (w : World) (host : String)
    (userNum : Int) :
    ∃ rest, (CheckLabels.audit env L w host userNum).2.events = w.events ++ rest := by
  unfold CheckLabels.audit
  have h0 := CheckLabels.getAllClusterIDs_world env w host
  cases hq : CheckLabels.getAllClusterIDs env w host with
  | mk q w4 =>
    rw [hq] at h0
    simp only at h0
    have e0 : ∃ rest, w4.events = w.events ++ rest := by
      rcases h0 with h | ⟨cs, h⟩
      · exact ⟨[], by rw [h]; simp⟩
      · exact ⟨[Event.sent (CheckLabels.inventoryRequest host)], by rw [h]; rfl⟩
    obtain ⟨r0, hr0⟩ := e0
    cases q with
    | error e => exact ⟨r0, hr0⟩
    | ok ids =>
        simp only
        rw [(CheckLabels.checkClusters_solo env L host userNum ids w4 none).2, hr0]
        exact ⟨_, List.append_assoc _ _ _⟩

/-- After a rejected login, the handshake run again by the same client against the same
replies fails with the same error. -/
theorem CheckLabels.handshake_again (env : Env) (w : World) (host username password : String)
    (h : ∃ r, env.srv (w.cursor + 1) = .ok r ∧ r.StatusCode ≠ 200) :
    (CheckLabels.handshake env
        ((CheckLabels.handshake env w host username password).2.rewind w.cursor)
        host username password).1 =
      (CheckLabels.handshake env w host username password).1 := by
  obtain ⟨r, hr, hs⟩ := h
  cases hq0 : CheckLabels.getCSRFToken env w host with
  | mk q0 w1 =>
    cases q0 with
    | error e =>
        have hw : CheckLabels.handshake env w host username password =
            (some (Err.csrfGetFailed e), w1) := by
          simp [CheckLabels.handshake, hq0]
        rw [hw]
        have h2 := CheckLabels.getCSRFToken_again_error env w w1 (w1.rewind w.cursor) host e
          hq0 rfl rfl
        cases hq0' : CheckLabels.getCSRFToken env (w1.rewind w.cursor) host with
        | mk q w1' =>
          rw [hq0'] at h2
          simp only at h2
          subst h2
          simp [CheckLabels.handshake, hq0']
    | ok tok =>
        obtain ⟨r0, _, _, hw1, hfind⟩ := CheckLabels.getCSRFToken_ok_inv env w w1 host tok hq0
        have hc1 : w1.cursor = w.cursor + 1 := by rw [hw1]; rfl
        have hp := CheckLabels.postLogin_rejected env w1 host username password tok r
          (by rw [hc1]; exact hr) hs
        have hworld := CheckLabels.postLogin_world env w1 host username password tok
        cases hq1 : CheckLabels.postLogin env w1 host username password tok with
        | mk q1 w2 =>
          rw [hq1] at hp hworld
          simp only at hp hworld
          have hw : CheckLabels.handshake env w host username password =
              (some (Err.loginPostFailed
                (if env.newRequestOk (CheckLabels.loginURL host) = false then
                   Err.newRequest (CheckLabels.loginURL host)
                 else Err.loginStatus r.StatusCode r.Body)), w2) := by
            simp [CheckLabels.handshake, hq0, hq1, hp]
          rw [hw]
          have hhas : (findCookie (w2.rewind w.cursor).jar "CSRF").isSome = true := by
            have hjar : (w2.rewind w.cursor).jar = w2.jar := rfl
            rw [hjar]
            rcases hworld with h | ⟨cs, h⟩
            · rw [h, hfind]; rfl
            · rw [h]
              have hj2 : (w1.exchanged (CheckLabels.loginRequest host username password tok)
                  cs).jar = setCookies w1.jar cs := rfl
              rw [hj2, findCookie_setCookies_isSome, hfind]
              rfl
          obtain ⟨tok2, w1', hq0', hc1'⟩ :=
            CheckLabels.getCSRFToken_again_ok env w w1 (w2.rewind w.cursor) host tok hq0 rfl hhas
          have hp' := CheckLabels.postLogin_rejected env w1' host username password tok2 r
            (by rw [hc1']; exact hr) hs
          cases hq1' : CheckLabels.postLogin env w1' host username password tok2 with
          | mk q1' w2' =>
            rw [hq1'] at hp'
            simp only at hp'
            simp [CheckLabels.handshake, hq0', hq1', hp']

/-- C6: in the label-check program, whatever the replies of the server.  The login request
is the second exchange of the flow and the session probe the third.  When the reply at the
second position is a response with a status other than 200, or the reply at the third
position is, the flow returns an error; what it adds to the trace is an initial segment of
the three handshake requests, so neither a cluster-discovery request nor a per-cluster node
request; and a client with the same jar at the same position gets the same error.  After a
rejected login the same client, keeping its jar, gets the same error when it runs the flow
again against the same replies.  And whenever the flow does send a cluster query, the login
and the probe were both answered with status 200 and the query comes after the three
handshake requests. -/
theorem CheckLabels.executeLoginFlow_gate (env : Env) (L : List String) (w : World)
    (host username password : String) (userNum : Int) :
    (((∃ r, env.srv (w.cursor + 1) = .ok r ∧ r.StatusCode ≠ 200) ∨
        (∃ r, env.srv (w.cursor + 2) = .ok r ∧ r.StatusCode ≠ 200)) →
      (CheckLabels.executeLoginFlow env L w host username password userNum).1 ≠ none ∧
      (CheckLabels.executeLoginFlow env L w host username password userNum).2.events =
        w.events ++
          newEvents w (CheckLabels.executeLoginFlow env L w host username password userNum).2 ∧
      (∀ e ∈ newEvents w
          (CheckLabels.executeLoginFlow env L w host username password userNum).2,
        ¬ isClusterQuery host e) ∧
      (∀ w2 : World, w2.jar = w.jar → w2.cursor = w.cursor →
        (CheckLabels.executeLoginFlow env L w2 host username password userNum).1 =
          (CheckLabels.executeLoginFlow env L w host username password userNum).1) ∧
      (∃ tok,
        newEvents w (CheckLabels.executeLoginFlow env L w host username password userNum).2 <+:
          [Event.sent (CheckLabels.csrfRequest host),
           Event.sent (CheckLabels.loginRequest host username password tok),
           Event.sent (CheckLabels.usersRequest host)])) ∧
    ((∃ r, env.srv (w.cursor + 1) = .ok r ∧ r.StatusCode ≠ 200) →
      (CheckLabels.executeLoginFlow env L
          ((CheckLabels.executeLoginFlow env L w host username password userNum).2.rewind
            w.cursor)
          host username password userNum).1 =
        (CheckLabels.executeLoginFlow env L w host username password userNum).1) ∧
    ((∃ e ∈ newEvents w
          (CheckLabels.executeLoginFlow env L w host username password userNum).2,
        isClusterQuery host e) →
      ∃ r1 r2 tok rest,
        env.srv (w.cursor + 1) = .ok r1 ∧ r1.StatusCode = 200 ∧
        env.srv (w.cursor + 2) = .ok r2 ∧ r2.StatusCode = 200 ∧
        newEvents w (CheckLabels.executeLoginFlow env L w host username password userNum).2 =
          Event.sent (CheckLabels.csrfRequest host) ::
            Event.sent (CheckLabels.loginRequest host username password tok) ::
              Event.sent (CheckLabels.usersRequest host) :: rest) := by
  refine ⟨?_, ?_, ?_⟩
  · intro h
    have hfail := CheckLabels.handshake_rejected env w host username password h
    have hflow := CheckLabels.executeLoginFlow_of_failed env L w host username password
      userNum hfail
    obtain ⟨new, hev, hq⟩ := CheckLabels.handshake_quiet env w host username password
    rw [hflow, newEvents_of_append w _ new hev]
    refine ⟨hfail, hev, hq, ?_, ?_⟩
    · intro w2 hj hc
      have hfr := CheckLabels.handshake_frame env w w2 host username password hj hc
      have hfail2 : (CheckLabels.handshake env w2 host username password).1 ≠ none := by
        rw [hfr]; exact hfail
      rw [CheckLabels.executeLoginFlow_of_failed env L w2 host username password userNum
        hfail2]
      exact hfr
    · obtain ⟨tok, new2, hev2, hpre⟩ :=
        CheckLabels.handshake_requests env w host username password
      have hsame : new = new2 := List.append_cancel_left (hev.symm.trans hev2)
      exact ⟨tok, hsame ▸ hpre⟩
  · intro h
    have hfail := CheckLabels.handshake_rejected env w host username password (Or.inl h)
    have hflow := CheckLabels.executeLoginFlow_of_failed env L w host username password
      userNum hfail
    rw [hflow]
    have hag := CheckLabels.handshake_again env w host username password h
    have hfail2 : (CheckLabels.handshake env
        ((CheckLabels.handshake env w host username password).2.rewind w.cursor)
        host username password).1 ≠ none := by
      rw [hag]; exact hfail
    rw [CheckLabels.executeLoginFlow_of_failed env L _ host username password userNum hfail2]
    exact hag
  · rintro ⟨e, he, hquery⟩
    cases hq : CheckLabels.handshake env w host username password with
    | mk q w3 =>
      cases q with
      | some err =>
          exfalso
          have hfail : (CheckLabels.handshake env w host username password).1 ≠ none := by
            rw [hq]; simp
          have hflow := CheckLabels.executeLoginFlow_of_failed env L w host username password
            userNum hfail
          obtain ⟨new, hev, hquiet⟩ := CheckLabels.handshake_quiet env w host username password
          rw [hflow, newEvents_of_append w _ new hev] at he
          exact hquiet e he hquery
      | none =>
          obtain ⟨r0, r1, r2, tok, _, _, hr1, hs1, hr2, hs2, hw3⟩ :=
            CheckLabels.handshake_ok_inv env w w3 host username password hq
          obtain ⟨rest, hrest⟩ := CheckLabels.audit_extends env L w3 host userNum
          refine ⟨r1, r2, tok, rest, hr1, hs1, hr2, hs2, ?_⟩
          rw [CheckLabels.executeLoginFlow_of_ok env L w w3 host username password userNum hq]
          apply newEvents_of_append
          rw [hrest, hw3]
          simp [World.exchanged]

/-- Two concrete runs: a server that rejects the login with status 401 (the flow fails, no
cluster query is sent, a second run fails alike), and the server of the concrete run above,
whose inventory request follows the three handshake requests. -/
theorem CheckLabels.executeLoginFlow_gate_witness :
    (∃ r, rejectEnv.srv (CheckLabels.createHTTPClient.cursor + 1) = .ok r ∧
      r.StatusCode ≠ 200) ∧
    (CheckLabels.executeLoginFlow rejectEnv demoLabels CheckLabels.createHTTPClient
      "h" "admin" "pw" 1).1 = some (Err.loginPostFailed (Err.loginStatus 401 "Unauthorized")) ∧
    (∀ e ∈ newEvents CheckLabels.createHTTPClient
        (CheckLabels.executeLoginFlow rejectEnv demoLabels CheckLabels.createHTTPClient
          "h" "admin" "pw" 1).2,
      ¬ isClusterQuery "h" e) ∧
    (CheckLabels.executeLoginFlow rejectEnv demoLabels
        ((CheckLabels.executeLoginFlow rejectEnv demoLabels CheckLabels.createHTTPClient
          "h" "admin" "pw" 1).2.rewind CheckLabels.createHTTPClient.cursor)
        "h" "admin" "pw" 1).1 =
      (CheckLabels.executeLoginFlow rejectEnv demoLabels CheckLabels.createHTTPClient
        "h" "admin" "pw" 1).1 ∧
    (∃ e ∈ newEvents CheckLabels.createHTTPClient
        (CheckLabels.executeLoginFlow demoEnv demoLabels CheckLabels.createHTTPClient
          "h" "admin" "pw" 1).2,
      isClusterQuery "h" e) ∧
    (∃ r1 r2 tok rest,
      demoEnv.srv (CheckLabels.createHTTPClient.cursor + 1) = .ok r1 ∧ r1.StatusCode = 200 ∧
      demoEnv.srv (CheckLabels.createHTTPClient.cursor + 2) = .ok r2 ∧ r2.StatusCode = 200 ∧
      newEvents CheckLabels.createHTTPClient
          (CheckLabels.executeLoginFlow demoEnv demoLabels CheckLabels.createHTTPClient
            "h" "admin" "pw" 1).2 =
        Event.sent (CheckLabels.csrfRequest "h") ::
          Event.sent (CheckLabels.loginRequest "h" "admin" "pw" tok) ::
            Event.sent (CheckLabels.usersRequest "h") :: rest) :=
  have hrej : ∃ r, rejectEnv.srv (CheckLabels.createHTTPClient.cursor + 1) = .ok r ∧
      r.StatusCode ≠ 200 :=
    ⟨{ StatusCode := 401, Body := "Unauthorized", setCookies := [] }, rfl, by decide⟩
  have hquery : ∃ e ∈ newEvents CheckLabels.createHTTPClient
      (CheckLabels.executeLoginFlow demoEnv demoLabels CheckLabels.createHTTPClient
        "h" "admin" "pw" 1).2, isClusterQuery "h" e :=
    ⟨Event.sent (CheckLabels.inventoryRequest "h"), by decide, Or.inl rfl⟩
  ⟨hrej, by decide,
   ((CheckLabels.executeLoginFlow_gate rejectEnv demoLabels CheckLabels.createHTTPClient
      "h" "admin" "pw" 1).1 (Or.inl hrej)).2.2.1,
   (CheckLabels.executeLoginFlow_gate rejectEnv demoLabels CheckLabels.createHTTPClient
      "h" "admin" "pw" 1).2.1 hrej,
   hquery,
   (CheckLabels.executeLoginFlow_gate demoEnv demoLabels CheckLabels.createHTTPClient
      "h" "admin" "pw" 1).2.2 hquery⟩

/-! ## The three `postLogin` functions -/

/-- C7 (the code departs from the claim): the `postLogin` of `get_principal_individual.go`
never returns a login-status error, whatever the reply; on a login answered 401 with body
"Unauthorized" the label-check program and `get_principals.go` return the error carrying the
status and the body, while `get_principal_individual.go` returns nil. -/
theorem postLogin_status_divergence :
    (∀ (env : Env) (w w1 : World) (host username password tok : String) (status : Nat)
        (body : String),
      GetPrincipalIndividual.postLogin env w host username password tok ≠
        some (some (Err.loginStatus status body), w1)) ∧
    (CheckLabels.postLogin rejectEnv (worldAt 1) "h" "admin" "pw" "tok").1 =
      some (Err.loginStatus 401 "Unauthorized") ∧
    (GetPrincipals.postLogin rejectEnv (worldAt 1) "h" "admin" "pw" "tok").map Prod.fst =
      some (some (Err.loginStatus 401 "Unauthorized")) ∧
    (GetPrincipalIndividual.postLogin rejectEnv (worldAt 1) "h" "admin" "pw" "tok").map
      Prod.fst = some none := by
  refine ⟨?_, by decide, by decide, by decide⟩
  intro env w w1 host username password tok status body h
  unfold GetPrincipalIndividual.postLogin clientDo at h
  cases hu : env.newRequestOk (host ++ "/v3-public/localProviders/local?action=login") with
  | false => simp [hu] at h
  | true =>
      cases hs : env.srv w.cursor with
      | error e => simp [hu, hs] at h
      | ok r => simp [hu, hs] at h

/-! ## A missing `CSRF` cookie -/

/-- C8 as stated fails in the label-check program: against a server that sets no `CSRF`
cookie and would accept the login, `executeLoginFlow` returns "CSRF GET failed: CSRF cookie
not found in response" after the token fetch alone, and no login request is sent. -/
theorem CheckLabels.csrf_absence_is_fatal :
    findCookie (setCookies CheckLabels.createHTTPClient.jar []) "CSRF" = none ∧
    CheckLabels.executeLoginFlow noCsrfEnv demoLabels CheckLabels.createHTTPClient
        "h" "admin" "pw" 1 =
      (some (Err.csrfGetFailed Err.csrfCookieNotFound),
        CheckLabels.createHTTPClient.exchanged (CheckLabels.csrfRequest "h") []) ∧
    (∀ tok, Event.sent (CheckLabels.loginRequest "h" "admin" "pw" tok) ∉
      (CheckLabels.executeLoginFlow noCsrfEnv demoLabels CheckLabels.createHTTPClient
        "h" "admin" "pw" 1).2.events) ∧
    (GetPrincipals.executeLoginFlow noCsrfEnv (worldAt 0) "h" "admin" "pw").map Prod.fst =
      some none := by
  have h2 : CheckLabels.executeLoginFlow noCsrfEnv demoLabels CheckLabels.createHTTPClient
        "h" "admin" "pw" 1 =
      (some (Err.csrfGetFailed Err.csrfCookieNotFound),
        CheckLabels.createHTTPClient.exchanged (CheckLabels.csrfRequest "h") []) := by
    decide
  refine ⟨by decide, h2, ?_, by decide⟩
  intro tok hmem
  rw [h2] at hmem
  simp [World.exchanged, CheckLabels.createHTTPClient, CheckLabels.csrfRequest,
    CheckLabels.loginRequest] at hmem

/-- C8, amended: in the two principal programs a token fetch that leaves no `CSRF` cookie in
the jar is not fatal: `executeLoginFlow` goes on to `postLogin` with the empty token, the
login request is sent without the `X-Api-Csrf` header, and the result is decided by the
reply to the login alone (in `get_principal_individual.go` only by whether a reply arrives).
In the label-check program the same situation ends the flow with the error "CSRF GET failed"
after the token fetch, and no login request is sent. -/
theorem executeLoginFlow_csrf_absence (env : Env) (L : List String) (w : World)
    (host username password : String) (userNum : Int) (r : Response)
    (hs : env.srv w.cursor = .ok r)
    (hf : findCookie (setCookies w.jar r.setCookies) "CSRF" = none) :
    (env.newRequestOk (host ++ "/v3") = true →
      env.newRequestOk (host ++ "/v3-public/localProviders/local?action=login") = true →
      GetPrincipals.executeLoginFlow env w host username password =
        GetPrincipals.postLogin env (w.exchanged (principalsTokenRequest host) r.setCookies)
          host username password "" ∧
      ∃ cs, GetPrincipals.executeLoginFlow env w host username password =
        some
          (match env.srv (w.cursor + 1) with
            | .error e => some (Err.transport e)
            | .ok r1 =>
                if r1.StatusCode ≠ 200 then some (Err.loginStatus r1.StatusCode r1.Body)
                else none,
           (w.exchanged (principalsTokenRequest host) r.setCookies).exchanged
             (principalsLoginRequest host "Automation Session" username password) cs)) ∧
    (env.newRequestOk (host ++ "/v3") = true →
      env.newRequestOk (host ++ "/v3-public/localProviders/local?action=login") = true →
      GetPrincipalIndividual.executeLoginFlow env w host username password =
        GetPrincipalIndividual.postLogin env
          (w.exchanged (principalsTokenRequest host) r.setCookies)
          host username password "" ∧
      ∃ cs, GetPrincipalIndividual.executeLoginFlow env w host username password =
        some
          (match env.srv (w.cursor + 1) with
            | .error e => some (Err.transport e)
            | .ok _ => none,
           (w.exchanged (principalsTokenRequest host) r.setCookies).exchanged
             (principalsLoginRequest host "UI session" username password) cs)) ∧
    (env.newRequestOk (CheckLabels.csrfURL host) = true → r.StatusCode = 200 →
      CheckLabels.executeLoginFlow env L w host username password userNum =
        (some (Err.csrfGetFailed Err.csrfCookieNotFound),
          w.exchanged (CheckLabels.csrfRequest host) r.setCookies)) := by
  refine ⟨?_, ?_, ?_⟩
  · intro hu0 hu1
    have hcur : (w.exchanged (principalsTokenRequest host) r.setCookies).cursor =
        w.cursor + 1 := rfl
    have hflow : GetPrincipals.executeLoginFlow env w host username password =
        GetPrincipals.postLogin env (w.exchanged (principalsTokenRequest host) r.setCookies)
          host username password "" := by
      simp [GetPrincipals.executeLoginFlow, GetPrincipals.getCSRFToken, clientDo, hu0, hs,
        World.exchanged, hf, principalsTokenRequest]
    refine ⟨hflow, ?_⟩
    rw [hflow]
    unfold GetPrincipals.postLogin clientDo
    rw [hcur]
    cases hs1 : env.srv (w.cursor + 1) with
    | error e => exact ⟨[], by simp [hu1, principalsLoginRequest]⟩
    | ok r1 =>
        refine ⟨r1.setCookies, ?_⟩
        by_cases hst : r1.StatusCode = 200
        · simp [hu1, hst, principalsLoginRequest]
        · simp [hu1, hst, principalsLoginRequest]
  · intro hu0 hu1
    have hcur : (w.exchanged (principalsTokenRequest host) r.setCookies).cursor =
        w.cursor + 1 := rfl
    have hflow : GetPrincipalIndividual.executeLoginFlow env w host username password =
        GetPrincipalIndividual.postLogin env
          (w.exchanged (principalsTokenRequest host) r.setCookies)
          host username password "" := by
      simp [GetPrincipalIndividual.executeLoginFlow, GetPrincipalIndividual.getCSRFToken,
        clientDo, hu0, hs, World.exchanged, hf, principalsTokenRequest]
    refine ⟨hflow, ?_⟩
    rw [hflow]
    unfold GetPrincipalIndividual.postLogin clientDo
    rw [hcur]
    cases hs1 : env.srv (w.cursor + 1) with
    | error e => exact ⟨[], by simp [hu1, principalsLoginRequest]⟩
    | ok r1 => exact ⟨r1.setCookies, by simp [hu1, principalsLoginRequest]⟩
  · intro hu hst
    simp [CheckLabels.executeLoginFlow, CheckLabels.getCSRFToken_eq, hu, hs, hst, hf]

/-- The concrete run without the cookie: both principal programs log in with the empty
token, the label-check program stops after the token fetch. -/
theorem executeLoginFlow_csrf_absence_witness :
    noCsrfEnv.srv CheckLabels.createHTTPClient.cursor =
      .ok { StatusCode := 200, Body := "settings", setCookies := [] } ∧
    findCookie (setCookies CheckLabels.createHTTPClient.jar []) "CSRF" = none ∧
    GetPrincipals.executeLoginFlow noCsrfEnv CheckLabels.createHTTPClient "h" "admin" "pw" =
      GetPrincipals.postLogin noCsrfEnv
        (CheckLabels.createHTTPClient.exchanged (principalsTokenRequest "h") [])
        "h" "admin" "pw" "" ∧
    GetPrincipalIndividual.executeLoginFlow noCsrfEnv CheckLabels.createHTTPClient
        "h" "admin" "pw" =
      GetPrincipalIndividual.postLogin noCsrfEnv
        (CheckLabels.createHTTPClient.exchanged (principalsTokenRequest "h") [])
        "h" "admin" "pw" "" ∧
    CheckLabels.executeLoginFlow noCsrfEnv demoLabels CheckLabels.createHTTPClient
        "h" "admin" "pw" 1 =
      (some (Err.csrfGetFailed Err.csrfCookieNotFound),
        CheckLabels.createHTTPClient.exchanged (CheckLabels.csrfRequest "h") []) :=
  have h := executeLoginFlow_csrf_absence noCsrfEnv demoLabels CheckLabels.createHTTPClient
    "h" "admin" "pw" 1 { StatusCode := 200, Body := "settings", setCookies := [] } rfl
    (by decide)
  ⟨rfl, by decide, (h.1 rfl rfl).1, (h.2.1 rfl rfl).1, h.2.2 rfl rfl⟩

/-! ## Best-effort audit of every discovered cluster -/

theorem CheckLabels.checkNodeLabels_cursor (env : Env) (L : List String) (w : World)
    (host : String) (userNum : Int) (clusterID : String) :
    (CheckLabels.checkNodeLabels env L w host userNum clusterID).2.cursor =
      w.cursor +
        (if env.newRequestOk (CheckLabels.nodesURL host clusterID) = true then 1 else 0) := by
  rw [CheckLabels.checkNodeLabels_eq]
  cases hu : env.newRequestOk (CheckLabels.nodesURL host clusterID) with
  | false => simp [World.print]
  | true =>
      cases hs : env.srv w.cursor with
      | error e => simp [World.print, World.exchanged]
      | ok r =>
          by_cases hst : r.StatusCode = 200
          · cases hd : env.decodeNodeList r.Body <;> simp [hst, hd, World.exchanged]
          · simp [hst, World.exchanged]

/-- Every check starts with exactly one attempt: the node request of its cluster, or the
line printed when that request cannot be built. -/
theorem CheckLabels.checkNodeLabels_attempt (env : Env) (L : List String) (k : Nat)
    (host : String) (userNum : Int) (clusterID : String) :
    (CheckLabels.checkNodeLabels env L (worldAt k) host userNum clusterID).2.events.filter
        isAttempt =
      [if env.newRequestOk (CheckLabels.nodesURL host clusterID) = true then
         Event.sent (CheckLabels.nodesRequest host clusterID)
       else Event.printed Line.newRequestFailed] := by
  have hw : ∀ l : List NodeItem,
      (l.map (specWarning L userNum clusterID)).filter isAttempt = [] := by
    intro l
    induction l with
    | nil => rfl
    | cons a t ih =>
        rw [List.map_cons, List.filter_cons]
        simp [specWarning, isAttempt, ih]
  rw [CheckLabels.checkNodeLabels_eq]
  cases hu : env.newRequestOk (CheckLabels.nodesURL host clusterID) with
  | false => simp [World.print, worldAt, isAttempt, List.filter]
  | true =>
      cases hs : env.srv (worldAt k).cursor with
      | error e => simp [World.print, World.exchanged, worldAt, isAttempt, List.filter]
      | ok r =>
          by_cases hst : r.StatusCode = 200
          · cases hd : env.decodeNodeList r.Body with
            | error e => simp [hst, hd, World.exchanged, worldAt, isAttempt, List.filter]
            | ok items =>
                by_cases hall : items.all (specCompliant L) = true
                · simp [hst, hd, worldAt, isAttempt, List.filter, List.filter_append, hw, hall]
                · simp [hst, hd, worldAt, isAttempt, List.filter, List.filter_append, hw, hall]
          · simp [hst, World.exchanged, worldAt, isAttempt, List.filter]

theorem CheckLabels.soloChecks_length (env : Env) (L : List String) (host : String)
    (userNum : Int) (ids : List String) (k : Nat) :
    (CheckLabels.soloChecks env L host userNum ids k).length = ids.length := by
  induction ids generalizing k with
  | nil => rfl
  | cons id rest ih => simp [CheckLabels.soloChecks, ih]

theorem CheckLabels.soloTrace_attempts (env : Env) (L : List String) (host : String)
    (userNum : Int) (ids : List String) (k : Nat) :
    (CheckLabels.soloTrace userNum ids
        (CheckLabels.soloChecks env L host userNum ids k)).filter isAttempt =
      ids.map (fun clusterID =>
        if env.newRequestOk (CheckLabels.nodesURL host clusterID) = true then
          Event.sent (CheckLabels.nodesRequest host clusterID)
        else Event.printed Line.newRequestFailed) := by
  induction ids generalizing k with
  | nil => rfl
  | cons id rest ih =>
      unfold CheckLabels.soloChecks CheckLabels.soloTrace
      rw [List.filter_append, List.filter_append, ih,
        CheckLabels.checkNodeLabels_attempt env L k host userNum id]
      cases (CheckLabels.checkNodeLabels env L (worldAt k) host userNum id).1 <;>
        simp [isAttempt, List.filter]

/-- The check of the `i`-th cluster, run on its own, faces the reply at `replyPosition`. -/
theorem CheckLabels.soloChecks_get (env : Env) (L : List String) (host : String)
    (userNum : Int) (ids : List String) (k i : Nat) (hi : i < ids.length) :
    (CheckLabels.soloChecks env L host userNum ids k)[i]? =
      some (CheckLabels.checkNodeLabels env L
        (worldAt (CheckLabels.replyPosition env host ids k i)) host userNum
        (ids.get ⟨i, hi⟩)) := by
  induction ids generalizing k i with
  | nil => simp at hi
  | cons id rest ih =>
      unfold CheckLabels.soloChecks
      cases i with
      | zero => simp [CheckLabels.replyPosition]
      | succ j =>
          have hj : j < rest.length := by simpa using hi
          rw [List.getElem?_cons_succ, ih _ j hj]
          have hc := CheckLabels.checkNodeLabels_cursor env L (worldAt k) host userNum id
          have hk : (worldAt k).cursor = k := rfl
          rw [hc, hk]
          have hpos : CheckLabels.replyPosition env host rest
              (k + if env.newRequestOk (CheckLabels.nodesURL host id) = true then 1 else 0) j =
              CheckLabels.replyPosition env host (id :: rest) k (j + 1) := by
            unfold CheckLabels.replyPosition
            rw [List.take_succ_cons, List.countP_cons]
            cases env.newRequestOk (CheckLabels.nodesURL host id) with
            | false => simp
            | true => simp; omega
          rw [hpos]
          rfl

theorem CheckLabels.checkResults_solo (env : Env) (L : List String) (host : String)
    (userNum : Int) (ids : List String) (w : World) :
    CheckLabels.checkResults env L host userNum ids w =
      (CheckLabels.soloChecks env L host userNum ids w.cursor).map Prod.fst := by
  induction ids generalizing w with
  | nil => rfl
  | cons id rest ih =>
      obtain ⟨h1, h2, _⟩ := CheckLabels.checkNodeLabels_solo env L w host userNum id
      unfold CheckLabels.checkResults CheckLabels.soloChecks
      cases hq : CheckLabels.checkNodeLabels env L w host userNum id with
      | mk q w1 =>
        rw [hq] at h1 h2
        simp only at h1 h2
        cases q with
        | some err =>
            simp only [List.map_cons, ← h1]
            rw [ih]
            have hc : (w1.print (Line.clusterErrors userNum id)).cursor = w1.cursor := rfl
            rw [hc, h2]
        | none =>
            simp only [List.map_cons, ← h1]
            rw [ih, h2]

theorem lastError_ne_none (acc : Option Err) (runs : List (Option Err × World)) :
    lastError acc runs ≠ none ↔ (acc ≠ none ∨ ∃ r ∈ runs, r.1 ≠ none) := by
  induction runs generalizing acc with
  | nil => simp [lastError]
  | cons r rest ih =>
      unfold lastError
      rw [ih]
      cases hr : r.1 with
      | none =>
          simp only [List.mem_cons, exists_eq_or_imp, hr, ne_eq, not_true_eq_false, false_or]
      | some e =>
          simp only [List.mem_cons, exists_eq_or_imp, hr, ne_eq, reduceCtorEq,
            not_false_eq_true, true_or, or_true]

/-- Once the handshake and the discovery have succeeded, the flow is the loop over the
discovered clusters. -/
theorem CheckLabels.executeLoginFlow_loop (env : Env) (L : List String) (w w1 w2 w3 w4 : World)
    (host username password tok : String) (userNum : Int) (ids : List String)
    (h0 : CheckLabels.getCSRFToken env w host = (.ok tok, w1))
    (h1 : CheckLabels.postLogin env w1 host username password tok = (none, w2))
    (h2 : CheckLabels.validateSession env w2 host = (none, w3))
    (h3 : CheckLabels.getAllClusterIDs env w3 host = (.ok ids, w4)) :
    CheckLabels.executeLoginFlow env L w host username password userNum =
      CheckLabels.checkClusters env L host userNum ids w4 none := by
  simp [CheckLabels.executeLoginFlow, h0, h1, h2, h3]

/-- C9: once the handshake and the discovery have succeeded, `executeLoginFlow` runs
`checkNodeLabels` once for every discovered cluster, in discovery order, whatever the
earlier checks returned: the trace after discovery has exactly one attempt per cluster, in
order; it is the concatenation of the traces of the checks of the clusters, each run on its
own by a fresh client against the reply at its position (followed by the error line when
that check fails); and the values returned in the loop are those of the checks run on
their own. -/
theorem CheckLabels.executeLoginFlow_checks_every_cluster (env : Env) (L : List String)
    (w w1 w2 w3 w4 : World) (host username password tok : String) (userNum : Int)
    (ids : List String)
    (h0 : CheckLabels.getCSRFToken env w host = (.ok tok, w1))
    (h1 : CheckLabels.postLogin env w1 host username password tok = (none, w2))
    (h2 : CheckLabels.validateSession env w2 host = (none, w3))
    (h3 : CheckLabels.getAllClusterIDs env w3 host = (.ok ids, w4)) :
    (CheckLabels.checkResults env L host userNum ids w4).length = ids.length ∧
    (newEvents w4
        (CheckLabels.executeLoginFlow env L w host username password userNum).2).filter
        isAttempt =
      ids.map (fun clusterID =>
        if env.newRequestOk (CheckLabels.nodesURL host clusterID) = true then
          Event.sent (CheckLabels.nodesRequest host clusterID)
        else Event.printed Line.newRequestFailed) ∧
    newEvents w4 (CheckLabels.executeLoginFlow env L w host username password userNum).2 =
      CheckLabels.soloTrace userNum ids
        (CheckLabels.soloChecks env L host userNum ids w4.cursor) ∧
    CheckLabels.checkResults env L host userNum ids w4 =
      (CheckLabels.soloChecks env L host userNum ids w4.cursor).map Prod.fst ∧
    (∀ (i : Nat) (hi : i < ids.length),
      (CheckLabels.soloChecks env L host userNum ids w4.cursor)[i]? =
        some (CheckLabels.checkNodeLabels env L
          (worldAt (CheckLabels.replyPosition env host ids w4.cursor i)) host userNum
          (ids.get ⟨i, hi⟩))) := by
  have hloop := CheckLabels.executeLoginFlow_loop env L w w1 w2 w3 w4 host username password
    tok userNum ids h0 h1 h2 h3
  have hsolo := CheckLabels.checkClusters_solo env L host userNum ids w4 none
  have hnew : newEvents w4
      (CheckLabels.executeLoginFlow env L w host username password userNum).2 =
      CheckLabels.soloTrace userNum ids
        (CheckLabels.soloChecks env L host userNum ids w4.cursor) := by
    apply newEvents_of_append
    rw [hloop]
    exact hsolo.2
  refine ⟨?_, ?_, hnew, CheckLabels.checkResults_solo env L host userNum ids w4, ?_⟩
  · rw [CheckLabels.checkResults_solo, List.length_map, CheckLabels.soloChecks_length]
  · rw [hnew]
    exact CheckLabels.soloTrace_attempts env L host userNum ids w4.cursor
  · intro i hi
    exact CheckLabels.soloChecks_get env L host userNum ids w4.cursor i hi

/-- The scenario of the specification: clusters `c-1` and `c-2`, the request for `c-2`
answered 503.  Both clusters are checked, in order; the warning for the non-compliant node
of `c-1` is printed and its check returns the count 1. -/
theorem CheckLabels.executeLoginFlow_checks_every_cluster_witness :
    CheckLabels.getCSRFToken demoEnv CheckLabels.createHTTPClient "h" = (.ok "tok", demoW1) ∧
    CheckLabels.postLogin demoEnv demoW1 "h" "admin" "pw" "tok" = (none, demoW2) ∧
    CheckLabels.validateSession demoEnv demoW2 "h" = (none, demoW3) ∧
    CheckLabels.getAllClusterIDs demoEnv demoW3 "h" = (.ok ["c-1", "c-2"], demoW4) ∧
    (newEvents demoW4
        (CheckLabels.executeLoginFlow demoEnv demoLabels CheckLabels.createHTTPClient
          "h" "admin" "pw" 1).2).filter isAttempt =
      [Event.sent (CheckLabels.nodesRequest "h" "c-1"),
       Event.sent (CheckLabels.nodesRequest "h" "c-2")] ∧
    newEvents demoW4
        (CheckLabels.executeLoginFlow demoEnv demoLabels CheckLabels.createHTTPClient
          "h" "admin" "pw" 1).2 =
      [Event.sent (CheckLabels.nodesRequest "h" "c-1"),
       Event.printed (Line.nodeMissing 1 "n2" "c-1" ["role/worker", "role/control-plane"]
         (some [("zone", "us-east")])),
       Event.printed (Line.clusterErrors 1 "c-1"),
       Event.sent (CheckLabels.nodesRequest "h" "c-2"),
       Event.printed (Line.clusterErrors 1 "c-2")] ∧
    CheckLabels.checkResults demoEnv demoLabels "h" 1 ["c-1", "c-2"] demoW4 =
      [some (Err.nodesMissingRole 1 "c-1"), some (Err.proxyStatus "c-2" 503 "unavailable")] :=
  have h := CheckLabels.executeLoginFlow_checks_every_cluster demoEnv demoLabels
    CheckLabels.createHTTPClient demoW1 demoW2 demoW3 demoW4 "h" "admin" "pw" "tok" 1
    ["c-1", "c-2"] rfl rfl rfl rfl
  ⟨rfl, rfl, rfl, rfl, h.2.1.trans (by decide), h.2.2.1.trans (by decide),
   h.2.2.2.1.trans (by decide)⟩

/-- C10: once the handshake and the discovery have succeeded, `executeLoginFlow` returns an
error exactly when `checkNodeLabels` returned an error for at least one discovered cluster
(equivalently, when the check of some cluster run on its own fails), and nil when every
check returned nil, in particular when no cluster was discovered. -/
theorem CheckLabels.executeLoginFlow_error_iff (env : Env) (L : List String)
    (w w1 w2 w3 w4 : World) (host username password tok : String) (userNum : Int)
    (ids : List String)
    (h0 : CheckLabels.getCSRFToken env w host = (.ok tok, w1))
    (h1 : CheckLabels.postLogin env w1 host username password tok = (none, w2))
    (h2 : CheckLabels.validateSession env w2 host = (none, w3))
    (h3 : CheckLabels.getAllClusterIDs env w3 host = (.ok ids, w4)) :
    ((CheckLabels.executeLoginFlow env L w host username password userNum).1 ≠ none ↔
      ∃ e ∈ CheckLabels.checkResults env L host userNum ids w4, e ≠ none) ∧
    ((CheckLabels.executeLoginFlow env L w host username password userNum).1 ≠ none ↔
      ∃ r ∈ CheckLabels.soloChecks env L host userNum ids w4.cursor, r.1 ≠ none) ∧
    ((∀ e ∈ CheckLabels.checkResults env L host userNum ids w4, e = none) →
      (CheckLabels.executeLoginFlow env L w host username password userNum).1 = none) ∧
    (ids = [] →
      (CheckLabels.executeLoginFlow env L w host username password userNum).1 = none) := by
  have hloop := CheckLabels.executeLoginFlow_loop env L w w1 w2 w3 w4 host username password
    tok userNum ids h0 h1 h2 h3
  have hsolo := (CheckLabels.checkClusters_solo env L host userNum ids w4 none).1
  have hiff : (CheckLabels.executeLoginFlow env L w host username password userNum).1 ≠ none ↔
      ∃ r ∈ CheckLabels.soloChecks env L host userNum ids w4.cursor, r.1 ≠ none := by
    rw [hloop, hsolo, lastError_ne_none]
    simp
  have hres : (∃ e ∈ CheckLabels.checkResults env L host userNum ids w4, e ≠ none) ↔
      ∃ r ∈ CheckLabels.soloChecks env L host userNum ids w4.cursor, r.1 ≠ none := by
    rw [CheckLabels.checkResults_solo]
    constructor
    · rintro ⟨e, he, hne⟩
      obtain ⟨r, hr, rfl⟩ := List.mem_map.1 he
      exact ⟨r, hr, hne⟩
    · rintro ⟨r, hr, hne⟩
      exact ⟨r.1, List.mem_map.2 ⟨r, hr, rfl⟩, hne⟩
  refine ⟨hiff.trans hres.symm, hiff, ?_, ?_⟩
  · intro hall
    by_contra hne
    obtain ⟨e, he, hen⟩ := (hiff.trans hres.symm).1 hne
    exact hen (hall e he)
  · intro hnil
    subst hnil
    rw [hloop]
    rfl

/-- The scenario again: `c-1` has a non-compliant node and `c-2` answers 503, so the flow
returns an error (the last one, that of `c-2`). -/
theorem CheckLabels.executeLoginFlow_error_iff_witness :
    CheckLabels.getCSRFToken demoEnv CheckLabels.createHTTPClient "h" = (.ok "tok", demoW1) ∧
    CheckLabels.postLogin demoEnv demoW1 "h" "admin" "pw" "tok" = (none, demoW2) ∧
    CheckLabels.validateSession demoEnv demoW2 "h" = (none, demoW3) ∧
    CheckLabels.getAllClusterIDs demoEnv demoW3 "h" = (.ok ["c-1", "c-2"], demoW4) ∧
    (∃ e ∈ CheckLabels.checkResults demoEnv demoLabels "h" 1 ["c-1", "c-2"] demoW4,
      e ≠ none) ∧
    (CheckLabels.executeLoginFlow demoEnv demoLabels CheckLabels.createHTTPClient
      "h" "admin" "pw" 1).1 ≠ none ∧
    (CheckLabels.executeLoginFlow demoEnv demoLabels CheckLabels.createHTTPClient
      "h" "admin" "pw" 1).1 = some (Err.proxyStatus "c-2" 503 "unavailable") :=
  have hex : ∃ e ∈ CheckLabels.checkResults demoEnv demoLabels "h" 1 ["c-1", "c-2"] demoW4,
      e ≠ none :=
    ⟨some (Err.nodesMissingRole 1 "c-1"), by decide, by decide⟩
  ⟨rfl, rfl, rfl, rfl, hex,
   (CheckLabels.executeLoginFlow_error_iff demoEnv demoLabels CheckLabels.createHTTPClient
      demoW1 demoW2 demoW3 demoW4 "h" "admin" "pw" "tok" 1 ["c-1", "c-2"]
      rfl rfl rfl rfl).1.2 hex,
   by decide⟩

/-! ## What the caller gets back -/

/-- C11 as stated fails: three runs over the same cluster list `c-1`, `c-2`, in which `c-1`
has a non-compliant node, succeeds, and fails to fetch, while `c-2` answers 503 in all of
them, hand the same value back to the caller. -/
theorem CheckLabels.result_forgets_earlier_clusters :
    CheckLabels.flowKinds auditEnvA demoLabels CheckLabels.createHTTPClient "h" "admin" "pw" 1 =
      some [("c-1", OutcomeKind.nonCompliant), ("c-2", OutcomeKind.queryError)] ∧
    CheckLabels.flowKinds auditEnvB demoLabels CheckLabels.createHTTPClient "h" "admin" "pw" 1 =
      some [("c-1", OutcomeKind.success), ("c-2", OutcomeKind.queryError)] ∧
    CheckLabels.flowKinds auditEnvC demoLabels CheckLabels.createHTTPClient "h" "admin" "pw" 1 =
      some [("c-1", OutcomeKind.queryError), ("c-2", OutcomeKind.queryError)] ∧
    (CheckLabels.executeLoginFlow auditEnvA demoLabels CheckLabels.createHTTPClient
      "h" "admin" "pw" 1).1 = some (Err.proxyStatus "c-2" 503 "unavailable") ∧
    (CheckLabels.executeLoginFlow auditEnvB demoLabels CheckLabels.createHTTPClient
      "h" "admin" "pw" 1).1 = some (Err.proxyStatus "c-2" 503 "unavailable") ∧
    (CheckLabels.executeLoginFlow auditEnvC demoLabels CheckLabels.createHTTPClient
      "h" "admin" "pw" 1).1 = some (Err.proxyStatus "c-2" 503 "unavailable") := by
  refine ⟨by decide, by decide, by decide, by decide, by decide, by decide⟩

theorem lastError_eq_lastFailure (acc : Option Err) (runs : List (Option Err × World)) :
    lastError acc runs = lastFailure acc (runs.map Prod.fst) := by
  induction runs generalizing acc with
  | nil => rfl
  | cons r rest ih =>
      unfold lastError
      rw [List.map_cons]
      unfold lastFailure
      exact ih _

theorem lastFailure_append (acc : Option Err) (l1 l2 : List (Option Err)) :
    lastFailure acc (l1 ++ l2) = lastFailure (lastFailure acc l1) l2 := by
  induction l1 generalizing acc with
  | nil => rfl
  | cons e rest ih =>
      simp only [List.cons_append, lastFailure]
      exact ih _

theorem lastFailure_all_none (acc : Option Err) (l : List (Option Err))
    (h : ∀ x ∈ l, x = none) : lastFailure acc l = acc := by
  induction l generalizing acc with
  | nil => rfl
  | cons e rest ih =>
      have he : e = none := h e (List.mem_cons_self _ _)
      subst he
      simp only [lastFailure]
      exact ih acc (fun x hx => h x (List.mem_cons_of_mem _ hx))

/-- After the last failing check only the error of that check is left in `checkErr`. -/
theorem lastFailure_split (pre post : List (Option Err)) (e : Err)
    (h : ∀ x ∈ post, x = none) : lastFailure none (pre ++ some e :: post) = some e := by
  rw [lastFailure_append]
  simp only [lastFailure]
  exact lastFailure_all_none _ post h

/-- Once the handshake and the discovery have succeeded, the flow returns the last error
among the values returned by the checks of the clusters. -/
theorem CheckLabels.executeLoginFlow_lastFailure (env : Env) (L : List String)
    (w w1 w2 w3 w4 : World) (host username password tok : String) (userNum : Int)
    (ids : List String)
    (h0 : CheckLabels.getCSRFToken env w host = (.ok tok, w1))
    (h1 : CheckLabels.postLogin env w1 host username password tok = (none, w2))
    (h2 : CheckLabels.validateSession env w2 host = (none, w3))
    (h3 : CheckLabels.getAllClusterIDs env w3 host = (.ok ids, w4)) :
    (CheckLabels.executeLoginFlow env L w host username password userNum).1 =
      lastFailure none (CheckLabels.checkResults env L host userNum ids w4) := by
  rw [CheckLabels.executeLoginFlow_loop env L w w1 w2 w3 w4 host username password tok
      userNum ids h0 h1 h2 h3,
    (CheckLabels.checkClusters_solo env L host userNum ids w4 none).1,
    lastError_eq_lastFailure, CheckLabels.checkResults_solo]

/-- C11, amended: once the handshake and the discovery have succeeded, the value
`executeLoginFlow` hands back to its caller does not keep the per-cluster detail: it is
the error returned by the check of the last discovered cluster that failed, and nil
when no check failed.  So any two audit runs over the same cluster list in which the last
failing check returns the same error hand back the same value, whatever the checks of the
other clusters returned. -/
theorem CheckLabels.result_is_last_failure (env : Env) (L : List String)
    (w w1 w2 w3 w4 : World) (host username password tok : String) (userNum : Int)
    (ids : List String)
    (h0 : CheckLabels.getCSRFToken env w host = (.ok tok, w1))
    (h1 : CheckLabels.postLogin env w1 host username password tok = (none, w2))
    (h2 : CheckLabels.validateSession env w2 host = (none, w3))
    (h3 : CheckLabels.getAllClusterIDs env w3 host = (.ok ids, w4)) :
    (CheckLabels.executeLoginFlow env L w host username password userNum).1 =
      lastFailure none (CheckLabels.checkResults env L host userNum ids w4) ∧
    (∀ (pre post : List (Option Err)) (e : Err),
      CheckLabels.checkResults env L host userNum ids w4 = pre ++ some e :: post →
      (∀ x ∈ post, x = none) →
      (CheckLabels.executeLoginFlow env L w host username password userNum).1 = some e) ∧
    ((∀ x ∈ CheckLabels.checkResults env L host userNum ids w4, x = none) →
      (CheckLabels.executeLoginFlow env L w host username password userNum).1 = none) ∧
    (∀ (env2 : Env) (L2 : List String) (v v1 v2 v3 v4 : World)
        (host2 username2 password2 tok2 : String) (userNum2 : Int)
        (pre post pre2 post2 : List (Option Err)) (e : Err),
      CheckLabels.getCSRFToken env2 v host2 = (.ok tok2, v1) →
      CheckLabels.postLogin env2 v1 host2 username2 password2 tok2 = (none, v2) →
      CheckLabels.validateSession env2 v2 host2 = (none, v3) →
      CheckLabels.getAllClusterIDs env2 v3 host2 = (.ok ids, v4) →
      CheckLabels.checkResults env L host userNum ids w4 = pre ++ some e :: post →
      CheckLabels.checkResults env2 L2 host2 userNum2 ids v4 = pre2 ++ some e :: post2 →
      (∀ x ∈ post, x = none) → (∀ x ∈ post2, x = none) →
      (CheckLabels.executeLoginFlow env L w host username password userNum).1 =
        (CheckLabels.executeLoginFlow env2 L2 v host2 username2 password2 userNum2).1) := by
  have hres := CheckLabels.executeLoginFlow_lastFailure env L w w1 w2 w3 w4 host username
    password tok userNum ids h0 h1 h2 h3
  refine ⟨hres, ?_, ?_, ?_⟩
  · intro pre post e hsplit hpost
    rw [hres, hsplit]
    exact lastFailure_split pre post e hpost
  · intro hall
    rw [hres]
    exact lastFailure_all_none none _ hall
  · intro env2 L2 v v1 v2 v3 v4 host2 username2 password2 tok2 userNum2 pre post pre2 post2 e
      g0 g1 g2 g3 hsplit hsplit2 hpost hpost2
    rw [hres, hsplit,
      CheckLabels.executeLoginFlow_lastFailure env2 L2 v v1 v2 v3 v4 host2 username2
        password2 tok2 userNum2 ids g0 g1 g2 g3,
      hsplit2, lastFailure_split pre post e hpost, lastFailure_split pre2 post2 e hpost2]

/-- Two of the three runs above: in the first `c-1` has a non-compliant node, in the second
it succeeds; in both the last failing check is that of `c-2`, answered 503, and both runs
hand back its error. -/
theorem CheckLabels.result_is_last_failure_witness :
    CheckLabels.getCSRFToken auditEnvA CheckLabels.createHTTPClient "h" = (.ok "tok", demoW1) ∧
    CheckLabels.postLogin auditEnvA demoW1 "h" "admin" "pw" "tok" = (none, demoW2) ∧
    CheckLabels.validateSession auditEnvA demoW2 "h" = (none, demoW3) ∧
    CheckLabels.getAllClusterIDs auditEnvA demoW3 "h" = (.ok ["c-1", "c-2"], demoW4) ∧
    CheckLabels.getCSRFToken auditEnvB CheckLabels.createHTTPClient "h" = (.ok "tok", demoW1) ∧
    CheckLabels.postLogin auditEnvB demoW1 "h" "admin" "pw" "tok" = (none, demoW2) ∧
    CheckLabels.validateSession auditEnvB demoW2 "h" = (none, demoW3) ∧
    CheckLabels.getAllClusterIDs auditEnvB demoW3 "h" = (.ok ["c-1", "c-2"], demoW4) ∧
    CheckLabels.checkResults auditEnvA demoLabels "h" 1 ["c-1", "c-2"] demoW4 =
      [some (Err.nodesMissingRole 1 "c-1")] ++
        some (Err.proxyStatus "c-2" 503 "unavailable") :: [] ∧
    CheckLabels.checkResults auditEnvB demoLabels "h" 1 ["c-1", "c-2"] demoW4 =
      [none] ++ some (Err.proxyStatus "c-2" 503 "unavailable") :: [] ∧
    (CheckLabels.executeLoginFlow auditEnvA demoLabels CheckLabels.createHTTPClient
      "h" "admin" "pw" 1).1 = some (Err.proxyStatus "c-2" 503 "unavailable") ∧
    (CheckLabels.executeLoginFlow auditEnvA demoLabels CheckLabels.createHTTPClient
      "h" "admin" "pw" 1).1 =
      (CheckLabels.executeLoginFlow auditEnvB demoLabels CheckLabels.createHTTPClient
        "h" "admin" "pw" 1).1 :=
  have h := CheckLabels.result_is_last_failure auditEnvA demoLabels
    CheckLabels.createHTTPClient demoW1 demoW2 demoW3 demoW4 "h" "admin" "pw" "tok" 1
    ["c-1", "c-2"] rfl rfl rfl rfl
  have hA : CheckLabels.checkResults auditEnvA demoLabels "h" 1 ["c-1", "c-2"] demoW4 =
      [some (Err.nodesMissingRole 1 "c-1")] ++
        some (Err.proxyStatus "c-2" 503 "unavailable") :: [] := by decide
  have hB : CheckLabels.checkResults auditEnvB demoLabels "h" 1 ["c-1", "c-2"] demoW4 =
      [none] ++ some (Err.proxyStatus "c-2" 503 "unavailable") :: [] := by decide
  ⟨rfl, rfl, rfl, rfl, rfl, rfl, rfl, rfl, hA, hB,
   h.2.1 _ _ _ hA (fun _ hx => absurd hx (List.not_mem_nil _)),
   h.2.2.2 auditEnvB demoLabels CheckLabels.createHTTPClient demoW1 demoW2 demoW3 demoW4
     "h" "admin" "pw" "tok" 1 _ _ _ _ _ rfl rfl rfl rfl hA hB
     (fun _ hx => absurd hx (List.not_mem_nil _))
     (fun _ hx => absurd hx (List.not_mem_nil _))⟩

/-! ## Principal IDs from the bindings (`getPrincipalIDsFromBindings`) -/

theorem GetPrincipalIndividual.bindingStep_keep (s : BindingState) (item : Binding)
    (h : item.UserId ≠ "" ∧ item.UserId ∉ s.seen ∧ item.UserId ≠ "system:admin") :
    GetPrincipalIndividual.bindingStep s item =
      { ids := s.ids ++ [item.UserId], seen := item.UserId :: s.seen,
        out := s.out ++ [PrincipalLine.userID item.UserId] } := by
  unfold GetPrincipalIndividual.bindingStep
  simp only [h, ne_eq, not_false_eq_true, and_self, if_true]

theorem GetPrincipalIndividual.bindingStep_skip (s : BindingState) (item : Binding)
    (h : ¬ (item.UserId ≠ "" ∧ item.UserId ∉ s.seen ∧ item.UserId ≠ "system:admin")) :
    GetPrincipalIndividual.bindingStep s item =
      { s with out := s.out ++ [PrincipalLine.userID item.UserId] } := by
  unfold GetPrincipalIndividual.bindingStep
  simp only [h, if_false]

/-- What the loop of `getPrincipalIDsFromBindings` collects: the user IDs of the bindings
other than the empty string and "system:admin", each once. -/
theorem GetPrincipalIndividual.collect_userIds (data : List Binding) :
    (∀ x, x ∈ (data.foldl GetPrincipalIndividual.bindingStep
        { ids := [], seen := [], out := [] }).seen ↔
      x ∈ (data.foldl GetPrincipalIndividual.bindingStep
        { ids := [], seen := [], out := [] }).ids) ∧
    (∀ x, x ∈ GetPrincipalIndividual.collectIDs data ↔
      (x ∈ data.map (fun b => b.UserId) ∧ x ≠ "" ∧ x ≠ "system:admin")) ∧
    (GetPrincipalIndividual.collectIDs data).Nodup := by
  unfold GetPrincipalIndividual.collectIDs
  induction data using List.reverseRecOn with
  | nil => simp
  | append_singleton l item ih =>
      obtain ⟨hseen, hmem, hnd⟩ := ih
      rw [List.foldl_append, List.foldl_cons, List.foldl_nil]
      by_cases h : item.UserId ≠ "" ∧
          item.UserId ∉ (l.foldl GetPrincipalIndividual.bindingStep
            { ids := [], seen := [], out := [] }).seen ∧ item.UserId ≠ "system:admin"
      · rw [GetPrincipalIndividual.bindingStep_keep _ _ h]
        have hnot : item.UserId ∉ (l.foldl GetPrincipalIndividual.bindingStep
            { ids := [], seen := [], out := [] }).ids := fun hx => h.2.1 ((hseen _).2 hx)
        refine ⟨?_, ?_, ?_⟩
        · intro x
          simp only [List.mem_cons, List.mem_append, List.mem_singleton, hseen x,
            List.not_mem_nil, or_false]
          exact or_comm
        · intro x
          simp only [List.mem_append, List.mem_singleton, hmem x, List.map_append,
            List.map_cons, List.map_nil, List.mem_map]
          constructor
          · rintro (⟨h1, h2, h3⟩ | h1)
            · exact ⟨Or.inl (by simpa using h1), h2, h3⟩
            · subst h1; exact ⟨Or.inr rfl, h.1, h.2.2⟩
          · rintro ⟨h1 | h1, h2, h3⟩
            · exact Or.inl ⟨by simpa using h1, h2, h3⟩
            · exact Or.inr h1
        · rw [List.nodup_append]
          refine ⟨hnd, List.nodup_singleton _, ?_⟩
          intro a ha hb
          rw [List.mem_singleton] at hb
          subst hb
          exact hnot ha
      · rw [GetPrincipalIndividual.bindingStep_skip _ _ h]
        refine ⟨hseen, ?_, hnd⟩
        intro x
        simp only [hmem x, List.map_append, List.map_cons, List.map_nil, List.mem_append,
          List.mem_singleton]
        constructor
        · rintro ⟨h1, h2, h3⟩; exact ⟨Or.inl h1, h2, h3⟩
        · rintro ⟨h1 | h1, h2, h3⟩
          · exact ⟨h1, h2, h3⟩
          · subst h1
            by_contra hcon
            apply h
            refine ⟨h2, ?_, h3⟩
            intro hs
            exact hcon ⟨((hmem _).1 ((hseen _).1 hs)).1, h2, h3⟩

/-- C12 (the code departs from the claim): on a binding list whose first entry has user ID
`u-1` and principal ID `local://u-1`, `getPrincipalIDsFromBindings` returns `u-1`, which is
the `userPrincipalId` of no binding, and returns neither `local://u-1` nor the principal
`openldap_user://x` of the binding without user ID: it collects the unique user IDs, not the
unique principal IDs its doc comment announces. -/
theorem GetPrincipalIndividual.principalIDs_are_userIds :
    (GetPrincipalIndividual.getPrincipalIDsFromBindings bindingsEnv demoUnmarshal (worldAt 0)
      "h").map (fun r => r.1.1) = some ["u-1"] ∧
    GetPrincipalIndividual.collectIDs demoBindings = ["u-1"] ∧
    demoBindings.map (fun b => b.UserPrincipalId) =
      ["local://u-1", "openldap_user://x", "local://u-1", "system://admin"] ∧
    "u-1" ∉ demoBindings.map (fun b => b.UserPrincipalId) ∧
    "local://u-1" ∉ GetPrincipalIndividual.collectIDs demoBindings ∧
    "openldap_user://x" ∉ GetPrincipalIndividual.collectIDs demoBindings := by
  refine ⟨by decide, by decide, by decide, by decide, by decide, by decide⟩

end Rancher
